import Mathlib

/-!
# Verification of the awesome window-manager client core (`src/client.c`)

This file gives a shallow embedding of the client state machine, the
geometry-hint resolver, the stacking engine and the focus controller of
`src/client.c`, and settles the frozen claims about the program.

Modelling conventions:
* C machine integers are modelled as `Int`/`Nat`; stores into the
  `uint16_t` width/height fields of `area_t` are wrapped with `u16`
  (reduction modulo 2^16) at the places where overflow could matter.
* The C `double` arithmetic of the aspect-ratio clamp is modelled with
  exact unreduced integer fractions (`Frac`); the `(int)` cast is
  `cInt`, truncation toward zero, which is what a C double-to-int
  conversion does.  On the inputs exercised here the double computation
  is exact (checked numerically), so the exact model agrees with the C
  result.
* External collaborators that live outside `src/` (titlebar geometry,
  screen queries, tag bookkeeping, the stack array, the X transport and
  the Lua hook sink) are modelled from the spec; each such definition
  carries a doc comment starting with `Modelled from the spec:`.
* Side effects (X requests, EWMH pushes, Lua hooks) are modelled as an
  emitted event list `List Ev`; every state-changing operation returns
  the new global state together with the events it fired, in order.
* A C null-pointer dereference is modelled by returning `none` from the
  operations that can reach one (`client_focus`/`client_focus_update`).
-/

/-- A rectangle, mirroring `area_t` (`x`,`y` are `int16_t`, `width`,`height`
are `uint16_t`; values are kept as `Int`, with explicit 16-bit wrapping
applied where the code can overflow a store). -/
structure Area where
  x : Int
  y : Int
  width : Int
  height : Int
deriving DecidableEq, Repr, Inhabited

/-- Reduction modulo 2^16: a store into a `uint16_t` field. -/
def u16 (v : Int) : Int := v % 65536

/-- An exact fraction `n / d` of integers, used to model the C `double`
values of the aspect-ratio clamp.  Fractions are never reduced; every
fraction built by the clamp has a positive denominator (denominators
are products of the guarded-positive aspect denominators and of the
positive `dx`/`dy`), which the comparison below relies on. -/
structure Frac where
  n : Int
  d : Int
deriving DecidableEq, Repr

/-- Embed an integer (`(double) i`). -/
def Frac.ofInt (i : Int) : Frac := ⟨i, 1⟩

def Frac.add (a b : Frac) : Frac := ⟨a.n * b.d + b.n * a.d, a.d * b.d⟩

def Frac.mul (a b : Frac) : Frac := ⟨a.n * b.n, a.d * b.d⟩

def Frac.div (a b : Frac) : Frac := ⟨a.n * b.d, a.d * b.n⟩

/-- `a < b`, by cross-multiplication; exact for positive denominators,
which holds at every comparison the clamp performs. -/
def Frac.lt (a b : Frac) : Bool := a.n * b.d < b.n * a.d

/-- The C cast `(int) d` for an exactly-represented value: truncation
toward zero (`Int.tdiv` is C `/` semantics). -/
def cInt (q : Frac) : Int := q.n.tdiv q.d

/-- The WM size hints used by `client_geometry_hints`, mirroring the
`xcb_size_hints_t` fields read by the source; each XCB flag bit is one
Boolean. -/
structure SizeHints where
  pSize : Bool          -- XCB_SIZE_HINT_P_SIZE
  pMinSize : Bool       -- XCB_SIZE_HINT_P_MIN_SIZE
  pMaxSize : Bool       -- XCB_SIZE_HINT_P_MAX_SIZE
  pAspect : Bool        -- XCB_SIZE_HINT_P_ASPECT
  pResizeInc : Bool     -- XCB_SIZE_HINT_P_RESIZE_INC
  baseSize : Bool       -- XCB_SIZE_HINT_BASE_SIZE
  base_width : Int
  base_height : Int
  min_width : Int
  min_height : Int
  max_width : Int
  max_height : Int
  width_inc : Int
  height_inc : Int
  min_aspect_num : Int
  min_aspect_den : Int
  max_aspect_num : Int
  max_aspect_den : Int
deriving DecidableEq, Repr, Inhabited

/-- `window_type_t`. -/
inductive WindowType where
  | normal | desktop | dock | splash | dialog | menu | toolbar | utility
  | dropdownMenu | popupMenu | tooltip | notification | combo | dnd
deriving DecidableEq, Repr, Inhabited

/-- The saved-geometry slots `c->geometries` (`internal`, `fullscreen`,
`max`). -/
structure Geometries where
  internal : Area
  fullscreen : Area
  max : Area
deriving DecidableEq, Repr, Inhabited

/-- A managed client, mirroring the fields of `client_t` that the core
operations read or write.  Pointers to other clients (`transient_for`)
and to X windows are modelled as window identifiers (`Nat`); `none`
models a NULL pointer. -/
structure Client where
  win : Nat
  screen : Nat          -- index of the virtual screen (`c->screen` pointer)
  phys_screen : Nat
  geometry : Area
  geometries : Geometries
  border : Int
  border_fs : Int
  size_hints : SizeHints
  size_hints_honor : Bool
  isurgent : Bool
  isfullscreen : Bool
  ismaxhoriz : Bool
  ismaxvert : Bool
  isabove : Bool
  isbelow : Bool
  isontop : Bool
  issticky : Bool
  isminimized : Bool
  ishidden : Bool
  isbanned : Bool
  ismodal : Bool
  invalid : Bool
  nofocus : Bool
  ctype : WindowType    -- `c->type`
  transient_for : Option Nat
  titlebar : Option Nat -- titlebar window id when a titlebar is attached
  takefocus : Bool      -- `client_hasproto(c, WM_TAKE_FOCUS)`
deriving DecidableEq, Repr, Inhabited

/-- Modelled from the spec: a tag of a screen, with its selection state
and the set of clients it currently tags (`tag.c` is outside `src/`;
§6 gives the `is_tagged`/`selected` predicates this stands for). -/
structure Tag where
  selected : Bool
  clients : List Nat
deriving DecidableEq, Repr, Inhabited

/-- A virtual screen: its tag list and per-region focus state, plus the
areas reported by the (external) screen queries.  `geometry` is
`screen_area_get(s, false)`, `workarea` is `screen_area_get(s, true)`. -/
structure Screen where
  tags : List Tag
  client_focus : Option Nat
  prev_client_focus : Option Nat
  geometry : Area
  workarea : Area
deriving DecidableEq, Repr, Inhabited

/-- An auxiliary panel (`wibox_t`): its window and `ontop` flag, the only
fields the stacking engine reads. -/
structure Wibox where
  window : Nat
  ontop : Bool
deriving DecidableEq, Repr, Inhabited

/-- An observable side effect fired by a core operation, in order:
X requests, EWMH property pushes and Lua hook invocations. -/
inductive Ev where
  /-- `xcb_configure_window` with `SIBLING|STACK_MODE(ABOVE)`: place `win`
  directly above `prev` (`prev = 0` is `XCB_NONE`, i.e. at the bottom). -/
  | stackAbove (win prev : Nat)
  /-- `xcb_configure_window` with x/y/width/height. -/
  | configureGeom (win : Nat) (x y width height : Int)
  /-- `xcb_configure_window` with `BORDER_WIDTH`. -/
  | configureBorderWidth (win : Nat) (w : Int)
  /-- a Lua hook (`hook_property` field name, or `focus`, `unfocus`,
  `manage`, `unmanage`, `clients`). -/
  | hook (name : String)
  /-- `ewmh_client_update_hints(c)`. -/
  | ewmhHints (win : Nat)
  /-- `ewmh_update_net_active_window(phys_screen)`. -/
  | ewmhActive (phys : Nat)
  /-- `ewmh_update_net_client_list(phys_screen)`. -/
  | ewmhClientList (phys : Nat)
  /-- `xcb_set_wm_hints` urgency rewrite in `client_seturgent`. -/
  | wmHints (win : Nat) (urgent : Bool)
  /-- `window_state_set` (0 withdrawn, 1 normal, 3 iconic). -/
  | wmState (win : Nat) (st : Nat)
  | mapWindow (win : Nat)
  | unmapWindow (win : Nat)
  /-- `xcb_set_input_focus` (win 0 is the root window). -/
  | setInputFocus (win : Nat)
  /-- `window_takefocus`: the WM_TAKE_FOCUS client message. -/
  | takeFocus (win : Nat)
  | titlebarBan (win : Nat)
  | titlebarUpdate (win : Nat)
  | titlebarDetach (win : Nat)
  /-- Modelled from the spec: `client_need_reban` visibility bookkeeping
  (outside `src/`), recorded as an effect token. -/
  | needReban (win : Nat)
  | ungrabButton (win : Nat)
deriving DecidableEq, Repr

/-- The global state (`globalconf`) restricted to what the client core
touches.  `heap` holds every allocated `client_t` object (objects
persist after unmanage, as in C, where the Lua GC owns them); `clients`
is the registry membership array and `stack` the stacking array, both
as lists of window ids standing for the C pointer arrays. -/
structure GState where
  heap : List Client
  clients : List Nat
  stack : List Nat
  screens : List Screen
  wiboxes : List Wibox
  screen_focus : Option Nat   -- index into `screens`, `none` = NULL
  client_need_stack_refresh : Bool
  /-- Modelled from the spec: `display_area_get(phys_screen)` results,
  one per physical screen (outside `src/`). -/
  displays : List Area
deriving DecidableEq, Repr, Inhabited

/-- Dereference a client pointer: find the allocated client with this
window id. -/
def GState.findClient (g : GState) (w : Nat) : Option Client :=
  g.heap.find? (fun c => c.win == w)

/-- Total version of `findClient` for modelling field reads through a
pointer that the source assumes valid (operations are only ever invoked
on allocated clients; theorems carry the allocation hypothesis). -/
def getClient (g : GState) (w : Nat) : Client :=
  (g.findClient w).getD default

/-- Mutate the client object with window id `w` in place. -/
def updateClient (g : GState) (w : Nat) (f : Client → Client) : GState :=
  { g with heap := g.heap.map (fun c => if c.win = w then f c else c) }

/-- Modelled from the spec: `client_stack()` (in `client.h`, outside
`src/`) only marks the stacking engine dirty. -/
def client_stack (g : GState) : GState :=
  { g with client_need_stack_refresh := true }

/-- Read a screen by index (`&globalconf.screens.tab[i]`). -/
def getScreen (g : GState) (i : Nat) : Screen :=
  g.screens.getD i default

/-- Mutate the screen at index `i` in place. -/
def modifyScreen (g : GState) (i : Nat) (f : Screen → Screen) : GState :=
  { g with screens := g.screens.set i (f (getScreen g i)) }

/-- Modelled from the spec: `display_area_get(phys_screen)` returns the
physical display area (outside `src/`). -/
def display_area_get (g : GState) (phys : Nat) : Area :=
  g.displays.getD phys default

/-- Modelled from the spec: `screen_area_get(screen, strut)` returns the
screen's area, honoring struts (the workarea) when asked (outside
`src/`). -/
def screen_area_get (g : GState) (sidx : Nat) (strut : Bool) : Area :=
  if strut then (getScreen g sidx).workarea else (getScreen g sidx).geometry

/-- Modelled from the spec: `screen_getbycoord` returns the screen
containing the coordinate, else the given screen (client migration on
move, §4.3). -/
def screen_getbycoord (g : GState) (sidx : Nat) (x y : Int) : Nat :=
  match g.screens.findIdx? (fun s =>
    s.geometry.x ≤ x && x < s.geometry.x + s.geometry.width &&
    s.geometry.y ≤ y && y < s.geometry.y + s.geometry.height) with
  | some i => i
  | none => sidx

/-- Modelled from the spec: `screen_client_moveto(c, screen, …)` as
called from `client_resize` reassigns the client's region without
changing tag membership. -/
def screen_client_moveto (g : GState) (cid : Nat) (sidx : Nat) : GState :=
  updateClient g cid (fun c => { c with screen := sidx })

/-- Modelled from the spec: `is_client_tagged(c, tag)` (in `tag.c`,
outside `src/`). -/
def is_client_tagged (c : Client) (t : Tag) : Bool :=
  t.clients.contains c.win

/-- Modelled from the spec: the decoration (titlebar) collaborator of
§6: `outer_to_internal`/`internal_to_outer` conversions
(`titlebar_geometry_remove`/`titlebar_geometry_add`, outside `src/`),
taking the client's titlebar (if any) and border width. -/
structure Decoration where
  remove : Option Nat → Int → Area → Area
  add : Option Nat → Int → Area → Area

/-- Modelled from the spec: the decoration conversion for a client
without a titlebar removes/adds only the border band (`±2×border` on
width and height). -/
def Decoration.borderOnly : Decoration where
  remove := fun _ b a => { a with width := a.width - 2 * b, height := a.height - 2 * b }
  add := fun _ b a => { a with width := a.width + 2 * b, height := a.height + 2 * b }

/-- Modelled from the spec: the `unsigned_subtract(a, b)` macro (in
`common/util.h`, outside `src/`): `if (b > a) a = 0; else a -= b;` on a
`uint16_t` lvalue, i.e. subtraction that floors at zero (the difference
is stored back into 16 bits). -/
def unsigned_subtract (a b : Int) : Int :=
  if b > a then 0 else u16 (a - b)

/-- `client_maybevisible(c, screen)` (`src/client.c:102`): the client is
on this screen and is sticky, a desktop window, or tagged by a selected
tag of the screen. -/
def client_maybevisible (g : GState) (c : Client) (sidx : Nat) : Bool :=
  if c.screen = sidx then
    if c.issticky || c.ctype == WindowType.desktop then true
    else (getScreen g sidx).tags.any (fun t => t.selected && is_client_tagged c t)
  else false

/-- `client_geometry_hints(c, geometry)` (`src/client.c:596`): the pure
geometry resolver.  Local `mn`/`mx` are the source's `min`/`max`
doubles, `ar` its `ratio`; the aspect arithmetic is done in exact
rationals and `cInt` is the C `(int)` cast. -/
def client_geometry_hints (c : Client) (geometry : Area) : Area :=
  let basew : Int :=
    if c.size_hints.pSize then c.size_hints.base_width
    else if c.size_hints.pMinSize then c.size_hints.min_width
    else 0
  let baseh : Int :=
    if c.size_hints.pSize then c.size_hints.base_height
    else if c.size_hints.pMinSize then c.size_hints.min_height
    else 0
  let minw : Int :=
    if c.size_hints.pMinSize then c.size_hints.min_width
    else if c.size_hints.pSize then c.size_hints.base_width
    else 0
  let minh : Int :=
    if c.size_hints.pMinSize then c.size_hints.min_height
    else if c.size_hints.pSize then c.size_hints.base_height
    else 0
  let geometry :=
    if c.size_hints.pAspect
       ∧ c.size_hints.min_aspect_num > 0
       ∧ c.size_hints.min_aspect_den > 0
       ∧ geometry.height - baseh > 0
       ∧ geometry.width - basew > 0 then
      let dx : Frac := Frac.ofInt (geometry.width - basew)
      let dy : Frac := Frac.ofInt (geometry.height - baseh)
      let mn : Frac := (Frac.ofInt c.size_hints.min_aspect_num).div (Frac.ofInt c.size_hints.min_aspect_den)
      -- quirk preserved from the source: `max` divides by the *min* denominator
      let mx : Frac := (Frac.ofInt c.size_hints.max_aspect_num).div (Frac.ofInt c.size_hints.min_aspect_den)
      let ar : Frac := dx.div dy
      if (Frac.ofInt 0).lt mx && (Frac.ofInt 0).lt mn && (Frac.ofInt 0).lt ar then
        if ar.lt mn then
          let dy := ((dx.mul mn).add dy).div ((mn.mul mn).add (Frac.ofInt 1))
          let dx := dy.mul mn
          { geometry with width := u16 (cInt dx + basew), height := u16 (cInt dy + baseh) }
        else if mx.lt ar then
          -- quirk preserved from the source: this branch also uses `mn`
          let dy := ((dx.mul mn).add dy).div ((mx.mul mx).add (Frac.ofInt 1))
          let dx := dy.mul mn
          { geometry with width := u16 (cInt dx + basew), height := u16 (cInt dy + baseh) }
        else geometry
      else geometry
    else geometry
  let geometry :=
    if minw ≠ 0 then { geometry with width := max geometry.width minw } else geometry
  let geometry :=
    if minh ≠ 0 then { geometry with height := max geometry.height minh } else geometry
  let geometry :=
    if c.size_hints.pMaxSize then
      let geometry :=
        if c.size_hints.max_width ≠ 0 then
          { geometry with width := min geometry.width c.size_hints.max_width }
        else geometry
      if c.size_hints.max_height ≠ 0 then
        { geometry with height := min geometry.height c.size_hints.max_height }
      else geometry
    else geometry
  if (c.size_hints.pResizeInc ∨ c.size_hints.baseSize)
     ∧ c.size_hints.width_inc ≠ 0 ∧ c.size_hints.height_inc ≠ 0 then
    let t1 := unsigned_subtract geometry.width basew
    let t2 := unsigned_subtract geometry.height baseh
    { geometry with
      width := u16 (geometry.width - t1.tmod c.size_hints.width_inc),
      height := u16 (geometry.height - t2.tmod c.size_hints.height_inc) }
  else geometry

/-- The internal-rectangle computation at the head of `client_resize`
(`src/client.c:692`): offscreen clamping, decoration removal, and
optional hint correction.  `client_resize` below compares this against
the stored internal rectangle. -/
def client_resize_internal (env : Decoration) (g : GState) (cid : Nat)
    (geometry : Area) (hints : Bool) : Area :=
  let c := getClient g cid
  let area := display_area_get g c.phys_screen
  let geometry := if geometry.x > area.width then { geometry with x := area.width - geometry.width } else geometry
  let geometry := if geometry.y > area.height then { geometry with y := area.height - geometry.height } else geometry
  let geometry := if geometry.x + geometry.width < 0 then { geometry with x := 0 } else geometry
  let geometry := if geometry.y + geometry.height < 0 then { geometry with y := 0 } else geometry
  let geometry_internal := env.remove c.titlebar c.border geometry
  if hints then client_geometry_hints c geometry_internal else geometry_internal

/-- `client_resize(c, geometry, hints)` (`src/client.c:692`).  Returns
the new state, the fired events and the C return value (`true` iff an
actual resize occurred). -/
def client_resize (env : Decoration) (g : GState) (cid : Nat)
    (geometry : Area) (hints : Bool) : GState × List Ev × Bool :=
  let c := getClient g cid
  let geometry_internal := client_resize_internal env g cid geometry hints
  if geometry_internal.width = 0 ∨ geometry_internal.height = 0 then (g, [], false)
  else
    -- let client hints propagate to the "official" geometry
    let geometry := env.add c.titlebar c.border geometry_internal
    if c.geometries.internal.x ≠ geometry_internal.x
       ∨ c.geometries.internal.y ≠ geometry_internal.y
       ∨ c.geometries.internal.width ≠ geometry_internal.width
       ∨ c.geometries.internal.height ≠ geometry_internal.height then
      let new_screen := screen_getbycoord g c.screen geometry_internal.x geometry_internal.y
      let g := updateClient g cid (fun c => { c with
        geometries := { c.geometries with internal := geometry_internal },
        geometry := geometry })
      let g := screen_client_moveto g cid new_screen
      (g, [.titlebarUpdate cid,
           .configureGeom cid geometry_internal.x geometry_internal.y
             geometry_internal.width geometry_internal.height,
           .hook "geometry"], true)
    else (g, [], false)

/-- `client_setborder(c, width)` (`src/client.c:1163`).  The three heap
updates mirror the source's sequence: shrink by the old border, change
the border, grow by the new border. -/
def client_setborder (g : GState) (cid : Nat) (width : Int) : GState × List Ev :=
  let c := getClient g cid
  if width > 0 ∧ (c.ctype == WindowType.dock || c.ctype == WindowType.splash
                  || c.ctype == WindowType.desktop || c.isfullscreen) then (g, [])
  else if width = c.border ∨ width < 0 then (g, [])
  else
    let g := updateClient g cid (fun c => { c with geometry := { c.geometry with
      width := u16 (c.geometry.width - 2 * c.border),
      height := u16 (c.geometry.height - 2 * c.border) } })
    let g := updateClient g cid (fun c => { c with border := width })
    let g := updateClient g cid (fun c => { c with geometry := { c.geometry with
      width := u16 (c.geometry.width + 2 * c.border),
      height := u16 (c.geometry.height + 2 * c.border) } })
    (g, [.configureBorderWidth cid width, .titlebarUpdate cid, .hook "border_width"])

/-- `client_seturgent(c, urgent)` (`src/client.c:70`). -/
def client_seturgent (g : GState) (cid : Nat) (urgent : Bool) : GState × List Ev :=
  let c := getClient g cid
  if c.isurgent ≠ urgent then
    let g := updateClient g cid (fun c => { c with isurgent := urgent })
    (g, [.ewmhHints cid, .wmHints cid urgent, .hook "urgent"])
  else (g, [])

/-- `client_setminimized(c, s)` (`src/client.c:764`). -/
def client_setminimized (g : GState) (cid : Nat) (s : Bool) : GState × List Ev :=
  let c := getClient g cid
  if c.isminimized ≠ s then
    let g := updateClient g cid (fun c => { c with isminimized := s })
    (g, [.needReban cid, .needReban cid, .wmState cid (if s then 3 else 1),
         .ewmhHints cid, .hook "minimized"])
  else (g, [])

/-- `client_setsticky(c, s)` (`src/client.c:786`). -/
def client_setsticky (g : GState) (cid : Nat) (s : Bool) : GState × List Ev :=
  let c := getClient g cid
  if c.issticky ≠ s then
    let g := updateClient g cid (fun c => { c with issticky := s })
    (g, [.needReban cid, .needReban cid, .ewmhHints cid, .hook "sticky"])
  else (g, [])

/-- `client_setmodal(c, s)` (`src/client.c:966`). -/
def client_setmodal (g : GState) (cid : Nat) (s : Bool) : GState × List Ev :=
  let c := getClient g cid
  if c.ismodal ≠ s then
    let g := updateClient g cid (fun c => { c with ismodal := s })
    (client_stack g, [.ewmhHints cid, .hook "modal"])
  else (g, [])

/-!
The six special-layer/maximize setters recurse into each other in the
source, but every nested call passes `false`, and the `s = false` paths
make no further nested calls.  Each setter is therefore split into its
`s = false` specialization (`…_off`, exactly the original body with
`s = false`, whose "clear the other layers" block is skipped) and a
general function that delegates to it, eliminating the (bounded)
recursion without changing any code path.
-/

/-- `client_setbelow(c, false)` (`src/client.c:942`, `s = false`). -/
def client_setbelow_off (g : GState) (cid : Nat) : GState × List Ev :=
  let c := getClient g cid
  if c.isbelow ≠ false then
    let g := updateClient g cid (fun c => { c with isbelow := false })
    (client_stack g, [.ewmhHints cid, .hook "below"])
  else (g, [])

/-- `client_setabove(c, false)` (`src/client.c:918`, `s = false`). -/
def client_setabove_off (g : GState) (cid : Nat) : GState × List Ev :=
  let c := getClient g cid
  if c.isabove ≠ false then
    let g := updateClient g cid (fun c => { c with isabove := false })
    (client_stack g, [.ewmhHints cid, .hook "above"])
  else (g, [])

/-- `client_setontop(c, false)` (`src/client.c:983`, `s = false`; note
the source fires no EWMH update here). -/
def client_setontop_off (g : GState) (cid : Nat) : GState × List Ev :=
  let c := getClient g cid
  if c.isontop ≠ false then
    let g := updateClient g cid (fun c => { c with isontop := false })
    (client_stack g, [.hook "ontop"])
  else (g, [])

/-- `client_setfullscreen(c, false)` (`src/client.c:803`, `s = false`):
restore the saved geometry and border.  The flag is written before
`client_setborder` runs (as in the source's `c->isfullscreen = s`), so
the border restore is not refused by the fullscreen check. -/
def client_setfullscreen_off (env : Decoration) (g : GState) (cid : Nat) : GState × List Ev :=
  let c := getClient g cid
  if c.isfullscreen ≠ false then
    let g := updateClient g cid (fun c => { c with isfullscreen := false })
    let c1 := getClient g cid
    let geometry := c1.geometries.fullscreen
    let r2 := client_setborder g cid c1.border_fs
    let r3 := client_resize env r2.1 cid geometry false
    (client_stack r3.1, r2.2 ++ r3.2.1 ++ [.ewmhHints cid, .hook "fullscreen"])
  else (g, [])

/-- `client_setmaxhoriz(c, false)` (`src/client.c:846`, `s = false`):
restore the saved x/width. -/
def client_setmaxhoriz_off (env : Decoration) (g : GState) (cid : Nat) : GState × List Ev :=
  let c := getClient g cid
  if c.ismaxhoriz ≠ false then
    let g := updateClient g cid (fun c => { c with ismaxhoriz := false })
    let c1 := getClient g cid
    let geometry := { c1.geometry with x := c1.geometries.max.x, width := c1.geometries.max.width }
    let r := client_resize env g cid geometry c1.size_hints_honor
    (client_stack r.1, r.2.1 ++ [.ewmhHints cid, .hook "maximized_horizontal"])
  else (g, [])

/-- `client_setmaxvert(c, false)` (`src/client.c:882`, `s = false`):
restore the saved y/height. -/
def client_setmaxvert_off (env : Decoration) (g : GState) (cid : Nat) : GState × List Ev :=
  let c := getClient g cid
  if c.ismaxvert ≠ false then
    let g := updateClient g cid (fun c => { c with ismaxvert := false })
    let c1 := getClient g cid
    let geometry := { c1.geometry with y := c1.geometries.max.y, height := c1.geometries.max.height }
    let r := client_resize env g cid geometry c1.size_hints_honor
    (client_stack r.1, r.2.1 ++ [.ewmhHints cid, .hook "maximized_vertical"])
  else (g, [])

/-- `client_setfullscreen(c, s)` (`src/client.c:803`). -/
def client_setfullscreen (env : Decoration) (g : GState) (cid : Nat) (s : Bool) : GState × List Ev :=
  if s then
    let c := getClient g cid
    if c.isfullscreen ≠ true then
      -- make sure the current geometry is stored without titlebar
      let e0 : List Ev := [.titlebarBan cid]
      let g := updateClient g cid (fun c => { c with isfullscreen := true })
      -- remove any max state; you can only be part of one special layer
      let r1 := client_setmaxhoriz_off env g cid
      let r2 := client_setmaxvert_off env r1.1 cid
      let r3 := client_setbelow_off r2.1 cid
      let r4 := client_setabove_off r3.1 cid
      let r5 := client_setontop_off r4.1 cid
      let c5 := getClient r5.1 cid
      let geometry := screen_area_get r5.1 c5.screen false
      let g6 := updateClient r5.1 cid (fun c => { c with
        geometries := { c.geometries with fullscreen := c.geometry },
        border_fs := c.border })
      let r7 := client_setborder g6 cid 0
      let r8 := client_resize env r7.1 cid geometry false
      (client_stack r8.1,
       e0 ++ r1.2 ++ r2.2 ++ r3.2 ++ r4.2 ++ r5.2 ++ r7.2 ++ r8.2.1
          ++ [.ewmhHints cid, .hook "fullscreen"])
    else (g, [])
  else client_setfullscreen_off env g cid

/-- `client_setmaxhoriz(c, s)` (`src/client.c:846`). -/
def client_setmaxhoriz (env : Decoration) (g : GState) (cid : Nat) (s : Bool) : GState × List Ev :=
  if s then
    let c := getClient g cid
    if c.ismaxhoriz ≠ true then
      let g := updateClient g cid (fun c => { c with ismaxhoriz := true })
      -- remove fullscreen mode
      let r1 := client_setfullscreen_off env g cid
      let c1 := getClient r1.1 cid
      let sa := screen_area_get r1.1 c1.screen true
      let geometry := { sa with y := c1.geometry.y, height := c1.geometry.height }
      let g2 := updateClient r1.1 cid (fun c => { c with
        geometries := { c.geometries with max := { c.geometries.max with
          x := c.geometry.x, width := c.geometry.width } } })
      let c2 := getClient g2 cid
      let r3 := client_resize env g2 cid geometry c2.size_hints_honor
      (client_stack r3.1, r1.2 ++ r3.2.1 ++ [.ewmhHints cid, .hook "maximized_horizontal"])
    else (g, [])
  else client_setmaxhoriz_off env g cid

/-- `client_setmaxvert(c, s)` (`src/client.c:882`). -/
def client_setmaxvert (env : Decoration) (g : GState) (cid : Nat) (s : Bool) : GState × List Ev :=
  if s then
    let c := getClient g cid
    if c.ismaxvert ≠ true then
      let g := updateClient g cid (fun c => { c with ismaxvert := true })
      -- remove fullscreen mode
      let r1 := client_setfullscreen_off env g cid
      let c1 := getClient r1.1 cid
      let sa := screen_area_get r1.1 c1.screen true
      let geometry := { sa with x := c1.geometry.x, width := c1.geometry.width }
      let g2 := updateClient r1.1 cid (fun c => { c with
        geometries := { c.geometries with max := { c.geometries.max with
          y := c.geometry.y, height := c.geometry.height } } })
      let c2 := getClient g2 cid
      let r3 := client_resize env g2 cid geometry c2.size_hints_honor
      (client_stack r3.1, r1.2 ++ r3.2.1 ++ [.ewmhHints cid, .hook "maximized_vertical"])
    else (g, [])
  else client_setmaxvert_off env g cid

/-- `client_setabove(c, s)` (`src/client.c:918`). -/
def client_setabove (env : Decoration) (g : GState) (cid : Nat) (s : Bool) : GState × List Ev :=
  if s then
    let c := getClient g cid
    if c.isabove ≠ true then
      -- you can only be part of one of the special layers
      let r1 := client_setbelow_off g cid
      let r2 := client_setontop_off r1.1 cid
      let r3 := client_setfullscreen_off env r2.1 cid
      let g4 := updateClient r3.1 cid (fun c => { c with isabove := true })
      (client_stack g4, r1.2 ++ r2.2 ++ r3.2 ++ [.ewmhHints cid, .hook "above"])
    else (g, [])
  else client_setabove_off g cid

/-- `client_setbelow(c, s)` (`src/client.c:942`). -/
def client_setbelow (env : Decoration) (g : GState) (cid : Nat) (s : Bool) : GState × List Ev :=
  if s then
    let c := getClient g cid
    if c.isbelow ≠ true then
      -- you can only be part of one of the special layers
      let r1 := client_setabove_off g cid
      let r2 := client_setontop_off r1.1 cid
      let r3 := client_setfullscreen_off env r2.1 cid
      let g4 := updateClient r3.1 cid (fun c => { c with isbelow := true })
      (client_stack g4, r1.2 ++ r2.2 ++ r3.2 ++ [.ewmhHints cid, .hook "below"])
    else (g, [])
  else client_setbelow_off g cid

/-- `client_setontop(c, s)` (`src/client.c:983`; the source fires no
EWMH update for this flag). -/
def client_setontop (env : Decoration) (g : GState) (cid : Nat) (s : Bool) : GState × List Ev :=
  if s then
    let c := getClient g cid
    if c.isontop ≠ true then
      -- you can only be part of one of the special layers
      let r1 := client_setabove_off g cid
      let r2 := client_setbelow_off r1.1 cid
      let r3 := client_setfullscreen_off env r2.1 cid
      let g4 := updateClient r3.1 cid (fun c => { c with isontop := true })
      (client_stack g4, r1.2 ++ r2.2 ++ r3.2 ++ [.hook "ontop"])
    else (g, [])
  else client_setontop_off g cid

/-- `client_unban(c)` (`src/client.c:1005`). -/
def client_unban (g : GState) (cid : Nat) : GState × List Ev :=
  let c := getClient g cid
  if c.isbanned then
    (updateClient g cid (fun c => { c with isbanned := false }), [.mapWindow cid])
  else (g, [])

/-- `client_unfocus_update(c)` (`src/client.c:171`): unconditionally
clears the physical screen's focused client and fires the unfocus
hook. -/
def client_unfocus_update (g : GState) (cid : Nat) : GState × List Ev :=
  let c := getClient g cid
  let g := modifyScreen g c.phys_screen (fun s => { s with client_focus := none })
  (g, [.ewmhActive c.phys_screen, .hook "unfocus"])

/-- `client_unfocus(c)` (`src/client.c:189`): focus the root window, then
record the unfocus. -/
def client_unfocus (g : GState) (cid : Nat) : GState × List Ev :=
  let r := client_unfocus_update g cid
  (r.1, .setInputFocus 0 :: r.2)

/-- `client_setfocus(c, set_input_focus)` (`src/client.c:223`): pure
event emission. -/
def client_setfocus (g : GState) (cid : Nat) (set_input_focus : Bool) : List Ev :=
  let c := getClient g cid
  (if set_input_focus then [Ev.setInputFocus cid] else [])
    ++ (if c.takefocus then [Ev.takeFocus cid] else [])

/-- The body of `client_focus_update(c)` (`src/client.c:258`) below its
visibility check (lines 268-298): unfocus any other focused client (or
return if already focused), unhide, unminimize, unban, record focus on
the physical screen, clear urgency and fire the focus hook. -/
def client_focus_update_core (g : GState) (cid : Nat) : GState × List Ev :=
  let c := getClient g cid
  let alreadyFocused : Bool :=
    match g.screen_focus with
    | some sf => (getScreen g sf).client_focus == some cid
    | none => false
  if alreadyFocused then (g, [])
  else
    let r1 : GState × List Ev :=
      match g.screen_focus with
      | some sf =>
        match (getScreen g sf).client_focus with
        | some fc => client_unfocus_update g fc
        | none => (g, [])
      | none => (g, [])
    -- stop hiding client
    let g1 := updateClient r1.1 cid (fun c => { c with ishidden := false })
    let r2 := client_setminimized g1 cid false
    -- unban the client before focusing for consistency
    let r3 := client_unban r2.1 cid
    let g4 := { r3.1 with screen_focus := some c.phys_screen }
    let g5 := modifyScreen g4 c.phys_screen (fun s =>
      { s with prev_client_focus := some cid, client_focus := some cid })
    -- according to EWMH, remove the urgent state from the client
    let r6 := client_seturgent g5 cid false
    (r6.1, r1.2 ++ r2.2 ++ r3.2 ++ r6.2 ++ [.ewmhActive c.phys_screen, .hook "focus"])

/-- `client_focus(c)` (`src/client.c:305`).  `co = none` models a NULL
argument.  A client id drawn from the registry is never NULL, so the
source's `!(c = globalconf.clients.tab[0])` early return cannot fire;
with an empty registry `c` stays NULL and the subsequent
`client_maybevisible(c, c->screen)` dereferences it — modelled by
returning `none` (a crash).  The visible branch dispatches to
`client_focus_update_core` directly: the source calls
`client_focus_update`, whose ineligible branch is unreachable because
visibility was just established. -/
def client_focus (g : GState) (co : Option Nat) : Option (GState × List Ev) :=
  let co := if co.isNone && !g.clients.isEmpty then some (g.clients.headD 0) else co
  match co with
  | none => none
  | some cid =>
    match g.findClient cid with
    | none => none
    | some c =>
      if !(client_maybevisible g c c.screen) then some (g, [])
      else
        let r1 := if !c.nofocus then client_focus_update_core g cid else (g, [])
        some (r1.1, r1.2 ++ client_setfocus r1.1 cid (!c.nofocus))

/-- `client_focus_update(c)` (`src/client.c:258`) as called from outside:
if the client fails its visibility check, fall back to focusing
`globalconf.screen_focus->prev_client_focus` (note: the globally
last-focused screen's, and a NULL `screen_focus` crashes — modelled by
`none`); otherwise run the update body. -/
def client_focus_update (g : GState) (cid : Nat) : Option (GState × List Ev) :=
  match g.findClient cid with
  | none => none
  | some c =>
    if !(client_maybevisible g c c.screen) then
      match g.screen_focus with
      | none => none
      | some sf => client_focus g (getScreen g sf).prev_client_focus
    else
      some (client_focus_update_core g cid)

/-- `layer_t` (`src/client.c:360`). -/
inductive layer_t where
  | LAYER_IGNORE | LAYER_DESKTOP | LAYER_BELOW | LAYER_NORMAL
  | LAYER_ABOVE | LAYER_FULLSCREEN | LAYER_ONTOP
deriving DecidableEq, Repr

/-- `client_layer_translator(c)` (`src/client.c:378`). -/
def client_layer_translator (c : Client) : layer_t :=
  if c.isontop then .LAYER_ONTOP
  else if c.isfullscreen then .LAYER_FULLSCREEN
  else if c.isabove then .LAYER_ABOVE
  else if c.isbelow then .LAYER_BELOW
  else if c.transient_for.isSome then .LAYER_IGNORE
  else match c.ctype with
    | .desktop => .LAYER_DESKTOP
    | _ => .LAYER_NORMAL

/-- `client_stack_above(c, previous)` (`src/client.c:326`): place the
client above `previous`, then its titlebar, then recursively every
stack member transient for it.  The source recursion is unbounded on a
(configuration-error) transient cycle; `fuel` bounds it here and is
always called with more fuel than any acyclic chain can consume, so the
model agrees with the source on cycle-free states. -/
def client_stack_above (g : GState) (cid : Nat) (previous : Nat) (fuel : Nat) : Nat × List Ev :=
  match fuel with
  | 0 => (previous, [])
  | fuel + 1 =>
    let c := getClient g cid
    let e1 := [Ev.stackAbove cid previous]
    let previous := match c.titlebar with
      | some tb => tb
      | none => cid
    let e2 := match c.titlebar with
      | some tb => [Ev.stackAbove tb cid]
      | none => []
    -- stack transient windows on top of their parents
    let r := g.stack.foldl (fun acc nid =>
      if (getClient g nid).transient_for = some cid then
        let r2 := client_stack_above g nid acc.1 fuel
        (r2.1, acc.2 ++ r2.2)
      else acc) (previous, [])
    (r.1, e1 ++ e2 ++ r.2)

/-- `client_stack_refresh()` (`src/client.c:411`): nothing unless the
dirty flag is set; clear it, then sweep the layers in the fixed order of
the two C `for` loops (desktop; then non-ontop wiboxes; then below,
normal, above, fullscreen, ontop; then ontop wiboxes), placing each
matching stack member above the previously placed window (`0` =
`XCB_NONE` starts at the bottom). -/
def client_stack_refresh (g : GState) : GState × List Ev :=
  if !g.client_need_stack_refresh then (g, [])
  else
    let g := { g with client_need_stack_refresh := false }
    let fuel := g.stack.length + 1
    let place := fun (acc : Nat × List Ev) (layer : layer_t) =>
      g.stack.foldl (fun acc nid =>
        if client_layer_translator (getClient g nid) = layer then
          let r := client_stack_above g nid acc.1 fuel
          (r.1, acc.2 ++ r.2)
        else acc) acc
    -- for(layer = LAYER_DESKTOP; layer < LAYER_BELOW; layer++)
    let acc := [layer_t.LAYER_DESKTOP].foldl place (0, [])
    -- first stack not ontop wibox windows
    let acc := g.wiboxes.foldl (fun acc sb =>
      if !sb.ontop then (sb.window, acc.2 ++ [Ev.stackAbove sb.window acc.1]) else acc) acc
    -- for(layer = LAYER_BELOW; layer < LAYER_COUNT; layer++)
    let acc := [layer_t.LAYER_BELOW, .LAYER_NORMAL, .LAYER_ABOVE,
                .LAYER_FULLSCREEN, .LAYER_ONTOP].foldl place acc
    -- then stack ontop wibox windows
    let acc := g.wiboxes.foldl (fun acc sb =>
      if sb.ontop then (sb.window, acc.2 ++ [Ev.stackAbove sb.window acc.1]) else acc) acc
    (g, acc.2)

/-- `client_unmanage(c)` (`src/client.c:1019`): clear every
`transient_for` reference to this client, clear it from its physical
screen's previous-focus (and unfocus it if focused), remove it from the
registry and the stack, untag it from its screen's tags, fire the
unmanage/list hooks and the X teardown, and mark it invalid. -/
def client_unmanage (g : GState) (cid : Nat) : GState × List Ev :=
  let c := getClient g cid
  -- reset transient_for attributes of windows that may be referring to us
  let g := { g with heap := g.heap.map (fun tc =>
    if tc.transient_for = some cid then { tc with transient_for := none } else tc) }
  let g := if (getScreen g c.phys_screen).prev_client_focus = some cid
    then modifyScreen g c.phys_screen (fun s => { s with prev_client_focus := none }) else g
  let r1 := if (getScreen g c.phys_screen).client_focus = some cid
    then client_unfocus g cid else (g, [])
  -- remove client from the global list (first matching entry) …
  let g2 := { r1.1 with clients := r1.1.clients.erase cid }
  -- … and from the stack (Modelled from the spec: `stack_client_remove`,
  -- in `stack.c` outside `src/`, removes the client from the stack array)
  let g3 := { g2 with stack := g2.stack.erase cid }
  -- Modelled from the spec: `untag_client(c, t)` for every tag of
  -- `c->screen` (`tag.c`, outside `src/`) removes the client from the tag
  let g4 := modifyScreen g3 c.screen (fun s =>
    { s with tags := s.tags.map (fun t => { t with clients := t.clients.erase cid }) })
  -- set client as invalid
  let g5 := updateClient g4 cid (fun c => { c with invalid := true })
  (g5, r1.2 ++ [.hook "unmanage", .hook "clients", .ungrabButton cid,
                .wmState cid 0, .titlebarDetach cid, .ewmhClientList c.phys_screen])

/-! ## Concrete fixtures used by witnesses and counterexamples -/

/-- A plain normal client with window id `w` and a 100×100 geometry. -/
def mkC (w : Nat) : Client :=
  { (default : Client) with
    win := w
    geometry := ⟨0, 0, 100, 100⟩
    geometries := ⟨⟨0, 0, 100, 100⟩, default, default⟩ }

/-- Stacking scenario client A: normal layer, no transient parent. -/
def cA : Client := mkC 1

/-- Stacking scenario client B: transient for A, otherwise normal. -/
def cB : Client := { mkC 2 with transient_for := some 1 }

/-- Stacking scenario client C: `above` flag set. -/
def cC : Client := { mkC 3 with isabove := true }

/-- The stacking scenario state: registry A, B, C with the given stack
order and the stacking engine marked dirty. -/
def mkStackState (st : List Nat) : GState :=
  { heap := [cA, cB, cC]
    clients := [1, 2, 3]
    stack := st
    screens := [default]
    wiboxes := []
    screen_focus := none
    client_need_stack_refresh := true
    displays := [⟨0, 0, 1000, 1000⟩] }

/-- Focus scenario client X (window 10), tagged by the selected tag. -/
def cX : Client := mkC 10

/-- Focus scenario client Y (window 11), tagged only by an unselected
tag. -/
def cY : Client := mkC 11

/-- Focus scenario: one screen with selected tag T1 = {X} and unselected
tag T2 = {Y}; X is the previously-focused client, nothing focused. -/
def gFocus : GState :=
  { heap := [cX, cY]
    clients := [10, 11]
    stack := [10, 11]
    screens := [{ tags := [⟨true, [10]⟩, ⟨false, [11]⟩]
                  client_focus := none
                  prev_client_focus := some 10
                  geometry := ⟨0, 0, 1000, 1000⟩
                  workarea := ⟨0, 0, 1000, 1000⟩ }]
    wiboxes := []
    screen_focus := some 0
    client_need_stack_refresh := false
    displays := [⟨0, 0, 1000, 1000⟩] }

/-- A state with an empty registry. -/
def emptyG : GState :=
  { heap := []
    clients := []
    stack := []
    screens := [default]
    wiboxes := []
    screen_focus := none
    client_need_stack_refresh := false
    displays := [] }

/-- A state whose single client has both `ontop` and `above` set — a
prior flag combination the mutual-exclusion claim quantifies over. -/
def gOA : GState :=
  { heap := [{ mkC 1 with isontop := true, isabove := true }]
    clients := [1]
    stack := [1]
    screens := [default]
    wiboxes := []
    screen_focus := none
    client_need_stack_refresh := false
    displays := [⟨0, 0, 1000, 1000⟩] }

/-- A state whose single client is a dock with border width 3. -/
def gDock : GState :=
  { heap := [{ mkC 1 with ctype := WindowType.dock, border := 3 }]
    clients := [1]
    stack := [1]
    screens := [default]
    wiboxes := []
    screen_focus := none
    client_need_stack_refresh := false
    displays := [⟨0, 0, 1000, 1000⟩] }

/-- A state with one ordinary client (window 1) with the `above` flag
set, used to exercise the setters. -/
def gW : GState :=
  { heap := [{ mkC 1 with isabove := true }]
    clients := [1]
    stack := [1]
    screens := [default]
    wiboxes := []
    screen_focus := none
    client_need_stack_refresh := false
    displays := [⟨0, 0, 1000, 1000⟩] }

/-- Unmanage scenario: P (window 1) is transient for Q (window 2); Q is
focused and previously-focused on physical screen 0. -/
def gPQ : GState :=
  { heap := [{ mkC 1 with transient_for := some 2 }, mkC 2]
    clients := [1, 2]
    stack := [1, 2]
    screens := [{ tags := [⟨true, [1, 2]⟩]
                  client_focus := some 2
                  prev_client_focus := some 2
                  geometry := ⟨0, 0, 1000, 1000⟩
                  workarea := ⟨0, 0, 1000, 1000⟩ }]
    wiboxes := []
    screen_focus := some 0
    client_need_stack_refresh := false
    displays := [⟨0, 0, 1000, 1000⟩] }

/-- Resize scenario: the stored internal rectangle is (10,10,50,50) but
the stored outer rectangle is (0,0,1,1), so a proposal equal to the
internal rectangle differs from the stored outer one. -/
def gR : GState :=
  { heap := [{ mkC 1 with geometry := ⟨0, 0, 1, 1⟩
                          geometries := ⟨⟨10, 10, 50, 50⟩, default, default⟩ }]
    clients := [1]
    stack := [1]
    screens := [default]
    wiboxes := []
    screen_focus := none
    client_need_stack_refresh := false
    displays := [⟨0, 0, 1000, 1000⟩] }

/-- A client whose hints ask for a 4:3 aspect ratio (min = max = 4/3)
with no base size, matching the spec's aspect example. -/
def aspectClient : Client :=
  { (default : Client) with
    size_hints := { (default : SizeHints) with
      pAspect := true
      min_aspect_num := 4
      min_aspect_den := 3
      max_aspect_num := 4
      max_aspect_den := 3 } }

/-- A client whose hints ask for 10×10 resize increments with no base
size, matching the spec's resize-increment example. -/
def incClient : Client :=
  { (default : Client) with
    size_hints := { (default : SizeHints) with
      pResizeInc := true
      width_inc := 10
      height_inc := 10 } }

/-- The four special-layer flags of a client, and the per-claim
"at most one special layer" predicate. -/
def specialFlags (c : Client) : List Bool :=
  [c.isontop, c.isabove, c.isbelow, c.isfullscreen]

/-- At most one of `ontop`/`above`/`below`/`fullscreen` is set. -/
def atMostOneSpecial (c : Client) : Prop :=
  (specialFlags c).count true ≤ 1

/-- The ten Boolean state flags driven by the setters, bundled so that
preservation lemmas can be stated once per operation. -/
structure CFlags where
  isurgent : Bool
  isfullscreen : Bool
  ismaxhoriz : Bool
  ismaxvert : Bool
  isabove : Bool
  isbelow : Bool
  isontop : Bool
  issticky : Bool
  isminimized : Bool
  ismodal : Bool
deriving DecidableEq, Repr

/-- Project a client's setter flags. -/
def Client.cflags (c : Client) : CFlags :=
  ⟨c.isurgent, c.isfullscreen, c.ismaxhoriz, c.ismaxvert, c.isabove,
   c.isbelow, c.isontop, c.issticky, c.isminimized, c.ismodal⟩

/-! ## Basic lemmas about the state primitives -/

theorem findClient_win {g : GState} {w : Nat} {c : Client}
    (h : g.findClient w = some c) : c.win = w := by
  have := List.find?_some h
  simpa using this

theorem findClient_heapMap (g : GState) (f : Client → Client)
    (hf : ∀ c, (f c).win = c.win) (w : Nat) :
    GState.findClient { g with heap := g.heap.map f } w = (g.findClient w).map f := by
  show (g.heap.map f).find? (fun c => c.win == w) = (g.heap.find? (fun c => c.win == w)).map f
  rw [List.find?_map]
  have : ((fun c : Client => c.win == w) ∘ f) = fun c => c.win == w := by
    funext c; simp [Function.comp, hf]
  rw [this]

theorem findClient_updateClient (g : GState) (cid : Nat) (f : Client → Client)
    (hf : ∀ c, (f c).win = c.win) (w : Nat) :
    (updateClient g cid f).findClient w
      = (g.findClient w).map (fun c => if c.win = cid then f c else c) := by
  refine findClient_heapMap g _ (fun c => ?_) w
  by_cases h : c.win = cid <;> simp [h, hf]

theorem findClient_updateClient_self {g : GState} {cid : Nat} {c : Client}
    (f : Client → Client) (hf : ∀ c, (f c).win = c.win)
    (h : g.findClient cid = some c) :
    (updateClient g cid f).findClient cid = some (f c) := by
  rw [findClient_updateClient g cid f hf]
  simp [h, findClient_win h]

theorem findClient_updateClient_ne {g : GState} {cid w : Nat}
    (f : Client → Client) (hf : ∀ c, (f c).win = c.win) (hne : w ≠ cid) :
    (updateClient g cid f).findClient w = g.findClient w := by
  rw [findClient_updateClient g cid f hf]
  cases h : g.findClient w with
  | none => rfl
  | some c => simp [findClient_win h, hne]

theorem findClient_client_stack (g : GState) (w : Nat) :
    (client_stack g).findClient w = g.findClient w := rfl

theorem findClient_modifyScreen (g : GState) (i : Nat) (f : Screen → Screen) (w : Nat) :
    (modifyScreen g i f).findClient w = g.findClient w := rfl

theorem getClient_eq {g : GState} {w : Nat} {c : Client}
    (h : g.findClient w = some c) : getClient g w = c := by
  simp [getClient, h]

/-! ## Flag tracking through the operations -/

theorem map_cflags_updateClient_set (g : GState) (cid : Nat) (f : Client → Client)
    (F : CFlags → CFlags) (hf : ∀ c, (f c).win = c.win)
    (hfl : ∀ c, (f c).cflags = F c.cflags) :
    ((updateClient g cid f).findClient cid).map Client.cflags
      = ((g.findClient cid).map Client.cflags).map F := by
  rw [findClient_updateClient g cid f hf]
  cases h : g.findClient cid with
  | none => rfl
  | some c => simp [findClient_win h, hfl]

theorem map_cflags_updateClient (g : GState) (cid : Nat) (f : Client → Client)
    (hf : ∀ c, (f c).win = c.win) (hfl : ∀ c, (f c).cflags = c.cflags) (w : Nat) :
    ((updateClient g cid f).findClient w).map Client.cflags
      = (g.findClient w).map Client.cflags := by
  rw [findClient_updateClient g cid f hf]
  cases h : g.findClient w with
  | none => rfl
  | some c =>
    have hc : Client.cflags (if c.win = cid then f c else c) = Client.cflags c := by
      split
      · exact hfl c
      · rfl
    simp [hc]

theorem resize_cflags (env : Decoration) (g : GState) (cid : Nat)
    (a : Area) (hints : Bool) (w : Nat) :
    ((client_resize env g cid a hints).1.findClient w).map Client.cflags
      = (g.findClient w).map Client.cflags := by
  simp only [client_resize]
  split
  · rfl
  · split
    · show (((updateClient (updateClient g cid _) cid _)).findClient w).map Client.cflags = _
      rw [map_cflags_updateClient, map_cflags_updateClient]
      · intro c; rfl
      · intro c; rfl
      · intro c; rfl
      · intro c; rfl
    · rfl

theorem cflags_set_isurgent {x : CFlags} {s : Bool} (h : x.isurgent = s) :
    { x with isurgent := s } = x := by cases x; subst h; rfl

theorem cflags_set_isfullscreen {x : CFlags} {s : Bool} (h : x.isfullscreen = s) :
    { x with isfullscreen := s } = x := by cases x; subst h; rfl

theorem cflags_set_ismaxhoriz {x : CFlags} {s : Bool} (h : x.ismaxhoriz = s) :
    { x with ismaxhoriz := s } = x := by cases x; subst h; rfl

theorem cflags_set_ismaxvert {x : CFlags} {s : Bool} (h : x.ismaxvert = s) :
    { x with ismaxvert := s } = x := by cases x; subst h; rfl

theorem cflags_set_isabove {x : CFlags} {s : Bool} (h : x.isabove = s) :
    { x with isabove := s } = x := by cases x; subst h; rfl

theorem cflags_set_isbelow {x : CFlags} {s : Bool} (h : x.isbelow = s) :
    { x with isbelow := s } = x := by cases x; subst h; rfl

theorem cflags_set_isontop {x : CFlags} {s : Bool} (h : x.isontop = s) :
    { x with isontop := s } = x := by cases x; subst h; rfl

theorem cflags_set_issticky {x : CFlags} {s : Bool} (h : x.issticky = s) :
    { x with issticky := s } = x := by cases x; subst h; rfl

theorem cflags_set_isminimized {x : CFlags} {s : Bool} (h : x.isminimized = s) :
    { x with isminimized := s } = x := by cases x; subst h; rfl

theorem cflags_set_ismodal {x : CFlags} {s : Bool} (h : x.ismodal = s) :
    { x with ismodal := s } = x := by cases x; subst h; rfl

theorem setborder_cflags (g : GState) (cid : Nat) (width : Int) (w : Nat) :
    ((client_setborder g cid width).1.findClient w).map Client.cflags
      = (g.findClient w).map Client.cflags := by
  simp only [client_setborder]
  split
  · rfl
  · split
    · rfl
    · show (((updateClient (updateClient (updateClient g cid _) cid _) cid _)).findClient w).map Client.cflags = _
      rw [map_cflags_updateClient, map_cflags_updateClient, map_cflags_updateClient]
      · intro c; rfl
      · intro c; rfl
      · intro c; rfl
      · intro c; rfl
      · intro c; rfl
      · intro c; rfl

theorem seturgent_cflags (g : GState) (cid : Nat) (s : Bool) :
    ((client_seturgent g cid s).1.findClient cid).map Client.cflags
      = ((g.findClient cid).map Client.cflags).map (fun fl => { fl with isurgent := s }) := by
  simp only [client_seturgent]
  cases h : g.findClient cid with
  | none =>
    have hd : getClient g cid = default := by simp [getClient, h]
    rw [hd]
    split
    · show ((updateClient g cid _).findClient cid).map Client.cflags = _
      rw [map_cflags_updateClient_set _ _ _ (fun fl => { fl with isurgent := s })]
      · rw [h]
      · intro c; rfl
      · intro c; rfl
    · simp [h]
  | some c =>
    rw [getClient_eq h]
    by_cases hs : c.isurgent = s
    · rw [if_neg (by simp [hs])]
      have hju : c.cflags.isurgent = s := hs
      simp [h, cflags_set_isurgent hju]
    · rw [if_pos hs]
      show ((updateClient g cid _).findClient cid).map Client.cflags = _
      rw [map_cflags_updateClient_set _ _ _ (fun fl => { fl with isurgent := s })]
      · rw [h]
      · intro c; rfl
      · intro c; rfl

theorem setminimized_cflags (g : GState) (cid : Nat) (s : Bool) :
    ((client_setminimized g cid s).1.findClient cid).map Client.cflags
      = ((g.findClient cid).map Client.cflags).map (fun fl => { fl with isminimized := s }) := by
  simp only [client_setminimized]
  cases h : g.findClient cid with
  | none =>
    have hd : getClient g cid = default := by simp [getClient, h]
    rw [hd]
    split
    · show ((updateClient g cid _).findClient cid).map Client.cflags = _
      rw [map_cflags_updateClient_set _ _ _ (fun fl => { fl with isminimized := s })]
      · rw [h]
      · intro c; rfl
      · intro c; rfl
    · simp [h]
  | some c =>
    rw [getClient_eq h]
    by_cases hs : c.isminimized = s
    · rw [if_neg (by simp [hs])]
      have hj : c.cflags.isminimized = s := hs
      simp [h, cflags_set_isminimized hj]
    · rw [if_pos hs]
      show ((updateClient g cid _).findClient cid).map Client.cflags = _
      rw [map_cflags_updateClient_set _ _ _ (fun fl => { fl with isminimized := s })]
      · rw [h]
      · intro c; rfl
      · intro c; rfl

theorem setsticky_cflags (g : GState) (cid : Nat) (s : Bool) :
    ((client_setsticky g cid s).1.findClient cid).map Client.cflags
      = ((g.findClient cid).map Client.cflags).map (fun fl => { fl with issticky := s }) := by
  simp only [client_setsticky]
  cases h : g.findClient cid with
  | none =>
    have hd : getClient g cid = default := by simp [getClient, h]
    rw [hd]
    split
    · show ((updateClient g cid _).findClient cid).map Client.cflags = _
      rw [map_cflags_updateClient_set _ _ _ (fun fl => { fl with issticky := s })]
      · rw [h]
      · intro c; rfl
      · intro c; rfl
    · simp [h]
  | some c =>
    rw [getClient_eq h]
    by_cases hs : c.issticky = s
    · rw [if_neg (by simp [hs])]
      have hj : c.cflags.issticky = s := hs
      simp [h, cflags_set_issticky hj]
    · rw [if_pos hs]
      show ((updateClient g cid _).findClient cid).map Client.cflags = _
      rw [map_cflags_updateClient_set _ _ _ (fun fl => { fl with issticky := s })]
      · rw [h]
      · intro c; rfl
      · intro c; rfl

theorem setmodal_cflags (g : GState) (cid : Nat) (s : Bool) :
    ((client_setmodal g cid s).1.findClient cid).map Client.cflags
      = ((g.findClient cid).map Client.cflags).map (fun fl => { fl with ismodal := s }) := by
  simp only [client_setmodal]
  cases h : g.findClient cid with
  | none =>
    have hd : getClient g cid = default := by simp [getClient, h]
    rw [hd]
    split
    · show ((client_stack (updateClient g cid _)).findClient cid).map Client.cflags = _
      rw [findClient_client_stack,
          map_cflags_updateClient_set _ _ _ (fun fl => { fl with ismodal := s })]
      · rw [h]
      · intro c; rfl
      · intro c; rfl
    · simp [h]
  | some c =>
    rw [getClient_eq h]
    by_cases hs : c.ismodal = s
    · rw [if_neg (by simp [hs])]
      have hj : c.cflags.ismodal = s := hs
      simp [h, cflags_set_ismodal hj]
    · rw [if_pos hs]
      show ((client_stack (updateClient g cid _)).findClient cid).map Client.cflags = _
      rw [findClient_client_stack,
          map_cflags_updateClient_set _ _ _ (fun fl => { fl with ismodal := s })]
      · rw [h]
      · intro c; rfl
      · intro c; rfl

theorem setbelow_off_cflags (g : GState) (cid : Nat) :
    ((client_setbelow_off g cid).1.findClient cid).map Client.cflags
      = ((g.findClient cid).map Client.cflags).map (fun fl => { fl with isbelow := false }) := by
  simp only [client_setbelow_off]
  cases h : g.findClient cid with
  | none =>
    have hd : getClient g cid = default := by simp [getClient, h]
    rw [hd]
    split
    · show ((client_stack (updateClient g cid _)).findClient cid).map Client.cflags = _
      rw [findClient_client_stack,
          map_cflags_updateClient_set _ _ _ (fun fl => { fl with isbelow := false })]
      · rw [h]
      · intro c; rfl
      · intro c; rfl
    · simp [h]
  | some c =>
    rw [getClient_eq h]
    by_cases hb : c.isbelow = false
    · rw [if_neg (by simp [hb])]
      have hj : c.cflags.isbelow = false := hb
      simp [h, cflags_set_isbelow hj]
    · rw [if_pos hb]
      show ((client_stack (updateClient g cid _)).findClient cid).map Client.cflags = _
      rw [findClient_client_stack,
          map_cflags_updateClient_set _ _ _ (fun fl => { fl with isbelow := false })]
      · rw [h]
      · intro c; rfl
      · intro c; rfl

theorem setabove_off_cflags (g : GState) (cid : Nat) :
    ((client_setabove_off g cid).1.findClient cid).map Client.cflags
      = ((g.findClient cid).map Client.cflags).map (fun fl => { fl with isabove := false }) := by
  simp only [client_setabove_off]
  cases h : g.findClient cid with
  | none =>
    have hd : getClient g cid = default := by simp [getClient, h]
    rw [hd]
    split
    · show ((client_stack (updateClient g cid _)).findClient cid).map Client.cflags = _
      rw [findClient_client_stack,
          map_cflags_updateClient_set _ _ _ (fun fl => { fl with isabove := false })]
      · rw [h]
      · intro c; rfl
      · intro c; rfl
    · simp [h]
  | some c =>
    rw [getClient_eq h]
    by_cases hb : c.isabove = false
    · rw [if_neg (by simp [hb])]
      have hj : c.cflags.isabove = false := hb
      simp [h, cflags_set_isabove hj]
    · rw [if_pos hb]
      show ((client_stack (updateClient g cid _)).findClient cid).map Client.cflags = _
      rw [findClient_client_stack,
          map_cflags_updateClient_set _ _ _ (fun fl => { fl with isabove := false })]
      · rw [h]
      · intro c; rfl
      · intro c; rfl

theorem setontop_off_cflags (g : GState) (cid : Nat) :
    ((client_setontop_off g cid).1.findClient cid).map Client.cflags
      = ((g.findClient cid).map Client.cflags).map (fun fl => { fl with isontop := false }) := by
  simp only [client_setontop_off]
  cases h : g.findClient cid with
  | none =>
    have hd : getClient g cid = default := by simp [getClient, h]
    rw [hd]
    split
    · show ((client_stack (updateClient g cid _)).findClient cid).map Client.cflags = _
      rw [findClient_client_stack,
          map_cflags_updateClient_set _ _ _ (fun fl => { fl with isontop := false })]
      · rw [h]
      · intro c; rfl
      · intro c; rfl
    · simp [h]
  | some c =>
    rw [getClient_eq h]
    by_cases hb : c.isontop = false
    · rw [if_neg (by simp [hb])]
      have hj : c.cflags.isontop = false := hb
      simp [h, cflags_set_isontop hj]
    · rw [if_pos hb]
      show ((client_stack (updateClient g cid _)).findClient cid).map Client.cflags = _
      rw [findClient_client_stack,
          map_cflags_updateClient_set _ _ _ (fun fl => { fl with isontop := false })]
      · rw [h]
      · intro c; rfl
      · intro c; rfl

theorem setfullscreen_off_cflags (env : Decoration) (g : GState) (cid : Nat) :
    ((client_setfullscreen_off env g cid).1.findClient cid).map Client.cflags
      = ((g.findClient cid).map Client.cflags).map (fun fl => { fl with isfullscreen := false }) := by
  simp only [client_setfullscreen_off]
  cases h : g.findClient cid with
  | none =>
    have hd : getClient g cid = default := by simp [getClient, h]
    rw [hd]
    split
    · show ((client_stack (client_resize env (client_setborder (updateClient g cid _) cid _).1 cid _ false).1).findClient cid).map Client.cflags = _
      rw [findClient_client_stack, resize_cflags, setborder_cflags,
          map_cflags_updateClient_set _ _ _ (fun fl => { fl with isfullscreen := false })]
      · rw [h]
      · intro c; rfl
      · intro c; rfl
    · simp [h]
  | some c =>
    rw [getClient_eq h]
    by_cases hb : c.isfullscreen = false
    · rw [if_neg (by simp [hb])]
      have hj : c.cflags.isfullscreen = false := hb
      simp [h, cflags_set_isfullscreen hj]
    · rw [if_pos hb]
      show ((client_stack (client_resize env (client_setborder (updateClient g cid _) cid _).1 cid _ false).1).findClient cid).map Client.cflags = _
      rw [findClient_client_stack, resize_cflags, setborder_cflags,
          map_cflags_updateClient_set _ _ _ (fun fl => { fl with isfullscreen := false })]
      · rw [h]
      · intro c; rfl
      · intro c; rfl

theorem setmaxhoriz_off_cflags (env : Decoration) (g : GState) (cid : Nat) :
    ((client_setmaxhoriz_off env g cid).1.findClient cid).map Client.cflags
      = ((g.findClient cid).map Client.cflags).map (fun fl => { fl with ismaxhoriz := false }) := by
  simp only [client_setmaxhoriz_off]
  cases h : g.findClient cid with
  | none =>
    have hd : getClient g cid = default := by simp [getClient, h]
    rw [hd]
    split
    · show ((client_stack (client_resize env (updateClient g cid _) cid _ _).1).findClient cid).map Client.cflags = _
      rw [findClient_client_stack, resize_cflags,
          map_cflags_updateClient_set _ _ _ (fun fl => { fl with ismaxhoriz := false })]
      · rw [h]
      · intro c; rfl
      · intro c; rfl
    · simp [h]
  | some c =>
    rw [getClient_eq h]
    by_cases hb : c.ismaxhoriz = false
    · rw [if_neg (by simp [hb])]
      have hj : c.cflags.ismaxhoriz = false := hb
      simp [h, cflags_set_ismaxhoriz hj]
    · rw [if_pos hb]
      show ((client_stack (client_resize env (updateClient g cid _) cid _ _).1).findClient cid).map Client.cflags = _
      rw [findClient_client_stack, resize_cflags,
          map_cflags_updateClient_set _ _ _ (fun fl => { fl with ismaxhoriz := false })]
      · rw [h]
      · intro c; rfl
      · intro c; rfl

theorem setmaxvert_off_cflags (env : Decoration) (g : GState) (cid : Nat) :
    ((client_setmaxvert_off env g cid).1.findClient cid).map Client.cflags
      = ((g.findClient cid).map Client.cflags).map (fun fl => { fl with ismaxvert := false }) := by
  simp only [client_setmaxvert_off]
  cases h : g.findClient cid with
  | none =>
    have hd : getClient g cid = default := by simp [getClient, h]
    rw [hd]
    split
    · show ((client_stack (client_resize env (updateClient g cid _) cid _ _).1).findClient cid).map Client.cflags = _
      rw [findClient_client_stack, resize_cflags,
          map_cflags_updateClient_set _ _ _ (fun fl => { fl with ismaxvert := false })]
      · rw [h]
      · intro c; rfl
      · intro c; rfl
    · simp [h]
  | some c =>
    rw [getClient_eq h]
    by_cases hb : c.ismaxvert = false
    · rw [if_neg (by simp [hb])]
      have hj : c.cflags.ismaxvert = false := hb
      simp [h, cflags_set_ismaxvert hj]
    · rw [if_pos hb]
      show ((client_stack (client_resize env (updateClient g cid _) cid _ _).1).findClient cid).map Client.cflags = _
      rw [findClient_client_stack, resize_cflags,
          map_cflags_updateClient_set _ _ _ (fun fl => { fl with ismaxvert := false })]
      · rw [h]
      · intro c; rfl
      · intro c; rfl

theorem setontop_cflags (env : Decoration) (g : GState) (cid : Nat) (v : Bool) :
    ((client_setontop env g cid v).1.findClient cid).map Client.cflags
      = ((g.findClient cid).map Client.cflags).map (fun fl =>
          if v then
            (if fl.isontop then fl
             else { fl with isabove := false, isbelow := false, isfullscreen := false, isontop := true })
          else { fl with isontop := false }) := by
  cases v with
  | false =>
    simp only [client_setontop, Bool.false_eq_true, if_false]
    rw [setontop_off_cflags]
  | true =>
    simp only [client_setontop, if_true]
    cases h : g.findClient cid with
    | none =>
      have hd : getClient g cid = default := by simp [getClient, h]
      rw [hd]
      split
      · show ((client_stack (updateClient (client_setfullscreen_off env (client_setbelow_off (client_setabove_off g cid).1 cid).1 cid).1 cid _)).findClient cid).map Client.cflags = _
        rw [findClient_client_stack,
            map_cflags_updateClient_set _ _ _ (fun fl => { fl with isontop := true }),
            setfullscreen_off_cflags, setbelow_off_cflags, setabove_off_cflags]
        · simp [h]
        · intro c; rfl
        · intro c; rfl
      · simp [h]
    | some c =>
      rw [getClient_eq h]
      by_cases hb : c.isontop = true
      · rw [if_neg (by simp [hb])]
        have hj : c.cflags.isontop = true := hb
        simp [h, hj]
      · rw [if_pos hb]
        show ((client_stack (updateClient (client_setfullscreen_off env (client_setbelow_off (client_setabove_off g cid).1 cid).1 cid).1 cid _)).findClient cid).map Client.cflags = _
        rw [findClient_client_stack,
            map_cflags_updateClient_set _ _ _ (fun fl => { fl with isontop := true }),
            setfullscreen_off_cflags, setbelow_off_cflags, setabove_off_cflags]
        · have hj : c.cflags.isontop = false := by simpa using hb
          simp [h, hj]
        · intro c; rfl
        · intro c; rfl

theorem setabove_cflags (env : Decoration) (g : GState) (cid : Nat) (v : Bool) :
    ((client_setabove env g cid v).1.findClient cid).map Client.cflags
      = ((g.findClient cid).map Client.cflags).map (fun fl =>
          if v then
            (if fl.isabove then fl
             else { fl with isbelow := false, isontop := false, isfullscreen := false, isabove := true })
          else { fl with isabove := false }) := by
  cases v with
  | false =>
    simp only [client_setabove, Bool.false_eq_true, if_false]
    rw [setabove_off_cflags]
  | true =>
    simp only [client_setabove, if_true]
    cases h : g.findClient cid with
    | none =>
      have hd : getClient g cid = default := by simp [getClient, h]
      rw [hd]
      split
      · show ((client_stack (updateClient (client_setfullscreen_off env (client_setontop_off (client_setbelow_off g cid).1 cid).1 cid).1 cid _)).findClient cid).map Client.cflags = _
        rw [findClient_client_stack,
            map_cflags_updateClient_set _ _ _ (fun fl => { fl with isabove := true }),
            setfullscreen_off_cflags, setontop_off_cflags, setbelow_off_cflags]
        · simp [h]
        · intro c; rfl
        · intro c; rfl
      · simp [h]
    | some c =>
      rw [getClient_eq h]
      by_cases hb : c.isabove = true
      · rw [if_neg (by simp [hb])]
        have hj : c.cflags.isabove = true := hb
        simp [h, hj]
      · rw [if_pos hb]
        show ((client_stack (updateClient (client_setfullscreen_off env (client_setontop_off (client_setbelow_off g cid).1 cid).1 cid).1 cid _)).findClient cid).map Client.cflags = _
        rw [findClient_client_stack,
            map_cflags_updateClient_set _ _ _ (fun fl => { fl with isabove := true }),
            setfullscreen_off_cflags, setontop_off_cflags, setbelow_off_cflags]
        · have hj : c.cflags.isabove = false := by simpa using hb
          simp [h, hj]
        · intro c; rfl
        · intro c; rfl

theorem setbelow_cflags (env : Decoration) (g : GState) (cid : Nat) (v : Bool) :
    ((client_setbelow env g cid v).1.findClient cid).map Client.cflags
      = ((g.findClient cid).map Client.cflags).map (fun fl =>
          if v then
            (if fl.isbelow then fl
             else { fl with isabove := false, isontop := false, isfullscreen := false, isbelow := true })
          else { fl with isbelow := false }) := by
  cases v with
  | false =>
    simp only [client_setbelow, Bool.false_eq_true, if_false]
    rw [setbelow_off_cflags]
  | true =>
    simp only [client_setbelow, if_true]
    cases h : g.findClient cid with
    | none =>
      have hd : getClient g cid = default := by simp [getClient, h]
      rw [hd]
      split
      · show ((client_stack (updateClient (client_setfullscreen_off env (client_setontop_off (client_setabove_off g cid).1 cid).1 cid).1 cid _)).findClient cid).map Client.cflags = _
        rw [findClient_client_stack,
            map_cflags_updateClient_set _ _ _ (fun fl => { fl with isbelow := true }),
            setfullscreen_off_cflags, setontop_off_cflags, setabove_off_cflags]
        · simp [h]
        · intro c; rfl
        · intro c; rfl
      · simp [h]
    | some c =>
      rw [getClient_eq h]
      by_cases hb : c.isbelow = true
      · rw [if_neg (by simp [hb])]
        have hj : c.cflags.isbelow = true := hb
        simp [h, hj]
      · rw [if_pos hb]
        show ((client_stack (updateClient (client_setfullscreen_off env (client_setontop_off (client_setabove_off g cid).1 cid).1 cid).1 cid _)).findClient cid).map Client.cflags = _
        rw [findClient_client_stack,
            map_cflags_updateClient_set _ _ _ (fun fl => { fl with isbelow := true }),
            setfullscreen_off_cflags, setontop_off_cflags, setabove_off_cflags]
        · have hj : c.cflags.isbelow = false := by simpa using hb
          simp [h, hj]
        · intro c; rfl
        · intro c; rfl

theorem setfullscreen_cflags (env : Decoration) (g : GState) (cid : Nat) (v : Bool) :
    ((client_setfullscreen env g cid v).1.findClient cid).map Client.cflags
      = ((g.findClient cid).map Client.cflags).map (fun fl =>
          if v then
            (if fl.isfullscreen then fl
             else { fl with ismaxhoriz := false, ismaxvert := false, isbelow := false,
                            isabove := false, isontop := false, isfullscreen := true })
          else { fl with isfullscreen := false }) := by
  cases v with
  | false =>
    simp only [client_setfullscreen, Bool.false_eq_true, if_false]
    rw [setfullscreen_off_cflags]
  | true =>
    simp only [client_setfullscreen, if_true]
    cases h : g.findClient cid with
    | none =>
      have hd : getClient g cid = default := by simp [getClient, h]
      rw [hd]
      split
      · show ((client_stack (client_resize env (client_setborder (updateClient (client_setontop_off (client_setabove_off (client_setbelow_off (client_setmaxvert_off env (client_setmaxhoriz_off env (updateClient g cid _) cid).1 cid).1 cid).1 cid).1 cid).1 cid _) cid 0).1 cid _ false).1).findClient cid).map Client.cflags = _
        rw [findClient_client_stack, resize_cflags, setborder_cflags,
            map_cflags_updateClient,
            setontop_off_cflags, setabove_off_cflags, setbelow_off_cflags,
            setmaxvert_off_cflags, setmaxhoriz_off_cflags,
            map_cflags_updateClient_set _ _ _ (fun fl => { fl with isfullscreen := true })]
        · simp [h]
        · intro c; rfl
        · intro c; rfl
        · intro c; rfl
        · intro c; rfl
      · simp [h]
    | some c =>
      rw [getClient_eq h]
      by_cases hb : c.isfullscreen = true
      · rw [if_neg (by simp [hb])]
        have hj : c.cflags.isfullscreen = true := hb
        simp [h, hj]
      · rw [if_pos hb]
        show ((client_stack (client_resize env (client_setborder (updateClient (client_setontop_off (client_setabove_off (client_setbelow_off (client_setmaxvert_off env (client_setmaxhoriz_off env (updateClient g cid _) cid).1 cid).1 cid).1 cid).1 cid).1 cid _) cid 0).1 cid _ false).1).findClient cid).map Client.cflags = _
        rw [findClient_client_stack, resize_cflags, setborder_cflags,
            map_cflags_updateClient,
            setontop_off_cflags, setabove_off_cflags, setbelow_off_cflags,
            setmaxvert_off_cflags, setmaxhoriz_off_cflags,
            map_cflags_updateClient_set _ _ _ (fun fl => { fl with isfullscreen := true })]
        · have hj : c.cflags.isfullscreen = false := by simpa using hb
          simp [h, hj]
        · intro c; rfl
        · intro c; rfl
        · intro c; rfl
        · intro c; rfl

theorem setmaxhoriz_cflags (env : Decoration) (g : GState) (cid : Nat) (v : Bool) :
    ((client_setmaxhoriz env g cid v).1.findClient cid).map Client.cflags
      = ((g.findClient cid).map Client.cflags).map (fun fl =>
          if v then
            (if fl.ismaxhoriz then fl
             else { fl with isfullscreen := false, ismaxhoriz := true })
          else { fl with ismaxhoriz := false }) := by
  cases v with
  | false =>
    simp only [client_setmaxhoriz, Bool.false_eq_true, if_false]
    rw [setmaxhoriz_off_cflags]
  | true =>
    simp only [client_setmaxhoriz, if_true]
    cases h : g.findClient cid with
    | none =>
      have hd : getClient g cid = default := by simp [getClient, h]
      rw [hd]
      split
      · show ((client_stack (client_resize env (updateClient (client_setfullscreen_off env (updateClient g cid _) cid).1 cid _) cid _ _).1).findClient cid).map Client.cflags = _
        rw [findClient_client_stack, resize_cflags,
            map_cflags_updateClient,
            setfullscreen_off_cflags,
            map_cflags_updateClient_set _ _ _ (fun fl => { fl with ismaxhoriz := true })]
        · simp [h]
        · intro c; rfl
        · intro c; rfl
        · intro c; rfl
        · intro c; rfl
      · simp [h]
    | some c =>
      rw [getClient_eq h]
      by_cases hb : c.ismaxhoriz = true
      · rw [if_neg (by simp [hb])]
        have hj : c.cflags.ismaxhoriz = true := hb
        simp [h, hj]
      · rw [if_pos hb]
        show ((client_stack (client_resize env (updateClient (client_setfullscreen_off env (updateClient g cid _) cid).1 cid _) cid _ _).1).findClient cid).map Client.cflags = _
        rw [findClient_client_stack, resize_cflags,
            map_cflags_updateClient,
            setfullscreen_off_cflags,
            map_cflags_updateClient_set _ _ _ (fun fl => { fl with ismaxhoriz := true })]
        · have hj : c.cflags.ismaxhoriz = false := by simpa using hb
          simp [h, hj]
        · intro c; rfl
        · intro c; rfl
        · intro c; rfl
        · intro c; rfl

theorem setmaxvert_cflags (env : Decoration) (g : GState) (cid : Nat) (v : Bool) :
    ((client_setmaxvert env g cid v).1.findClient cid).map Client.cflags
      = ((g.findClient cid).map Client.cflags).map (fun fl =>
          if v then
            (if fl.ismaxvert then fl
             else { fl with isfullscreen := false, ismaxvert := true })
          else { fl with ismaxvert := false }) := by
  cases v with
  | false =>
    simp only [client_setmaxvert, Bool.false_eq_true, if_false]
    rw [setmaxvert_off_cflags]
  | true =>
    simp only [client_setmaxvert, if_true]
    cases h : g.findClient cid with
    | none =>
      have hd : getClient g cid = default := by simp [getClient, h]
      rw [hd]
      split
      · show ((client_stack (client_resize env (updateClient (client_setfullscreen_off env (updateClient g cid _) cid).1 cid _) cid _ _).1).findClient cid).map Client.cflags = _
        rw [findClient_client_stack, resize_cflags,
            map_cflags_updateClient,
            setfullscreen_off_cflags,
            map_cflags_updateClient_set _ _ _ (fun fl => { fl with ismaxvert := true })]
        · simp [h]
        · intro c; rfl
        · intro c; rfl
        · intro c; rfl
        · intro c; rfl
      · simp [h]
    | some c =>
      rw [getClient_eq h]
      by_cases hb : c.ismaxvert = true
      · rw [if_neg (by simp [hb])]
        have hj : c.cflags.ismaxvert = true := hb
        simp [h, hj]
      · rw [if_pos hb]
        show ((client_stack (client_resize env (updateClient (client_setfullscreen_off env (updateClient g cid _) cid).1 cid _) cid _ _).1).findClient cid).map Client.cflags = _
        rw [findClient_client_stack, resize_cflags,
            map_cflags_updateClient,
            setfullscreen_off_cflags,
            map_cflags_updateClient_set _ _ _ (fun fl => { fl with ismaxvert := true })]
        · have hj : c.cflags.ismaxvert = false := by simpa using hb
          simp [h, hj]
        · intro c; rfl
        · intro c; rfl
        · intro c; rfl
        · intro c; rfl

/-! ## No-op guards of the setters -/

theorem seturgent_noop {g : GState} {cid : Nat} {v : Bool}
    (h : (getClient g cid).isurgent = v) : client_seturgent g cid v = (g, []) := by
  simp [client_seturgent, h]

theorem setminimized_noop {g : GState} {cid : Nat} {v : Bool}
    (h : (getClient g cid).isminimized = v) : client_setminimized g cid v = (g, []) := by
  simp [client_setminimized, h]

theorem setsticky_noop {g : GState} {cid : Nat} {v : Bool}
    (h : (getClient g cid).issticky = v) : client_setsticky g cid v = (g, []) := by
  simp [client_setsticky, h]

theorem setmodal_noop {g : GState} {cid : Nat} {v : Bool}
    (h : (getClient g cid).ismodal = v) : client_setmodal g cid v = (g, []) := by
  simp [client_setmodal, h]

theorem setontop_noop {env : Decoration} {g : GState} {cid : Nat} {v : Bool}
    (h : (getClient g cid).isontop = v) : client_setontop env g cid v = (g, []) := by
  cases v <;> simp [client_setontop, client_setontop_off, h]

theorem setabove_noop {env : Decoration} {g : GState} {cid : Nat} {v : Bool}
    (h : (getClient g cid).isabove = v) : client_setabove env g cid v = (g, []) := by
  cases v <;> simp [client_setabove, client_setabove_off, h]

theorem setbelow_noop {env : Decoration} {g : GState} {cid : Nat} {v : Bool}
    (h : (getClient g cid).isbelow = v) : client_setbelow env g cid v = (g, []) := by
  cases v <;> simp [client_setbelow, client_setbelow_off, h]

theorem setfullscreen_noop {env : Decoration} {g : GState} {cid : Nat} {v : Bool}
    (h : (getClient g cid).isfullscreen = v) : client_setfullscreen env g cid v = (g, []) := by
  cases v <;> simp [client_setfullscreen, client_setfullscreen_off, h]

theorem setmaxhoriz_noop {env : Decoration} {g : GState} {cid : Nat} {v : Bool}
    (h : (getClient g cid).ismaxhoriz = v) : client_setmaxhoriz env g cid v = (g, []) := by
  cases v <;> simp [client_setmaxhoriz, client_setmaxhoriz_off, h]

theorem setmaxvert_noop {env : Decoration} {g : GState} {cid : Nat} {v : Bool}
    (h : (getClient g cid).ismaxvert = v) : client_setmaxvert env g cid v = (g, []) := by
  cases v <;> simp [client_setmaxvert, client_setmaxvert_off, h]

/-- Extract the updated client from a flag-map characterization. -/
theorem flag_after_of_cflags {g r : GState} {cid : Nat} {c : Client} {F : CFlags → CFlags}
    (h : g.findClient cid = some c)
    (hmap : (r.findClient cid).map Client.cflags = ((g.findClient cid).map Client.cflags).map F) :
    ∃ c', r.findClient cid = some c' ∧ c'.cflags = F c.cflags := by
  rw [h] at hmap
  cases hr : r.findClient cid with
  | none => rw [hr] at hmap; simp at hmap
  | some c' =>
    rw [hr] at hmap
    simp at hmap
    exact ⟨c', rfl, hmap⟩

/-- C6: setter idempotence and notification suppression.  For every
allocated client: (a) each of the ten Boolean setters called with a
value equal to the current flag leaves the entire global state unchanged
and fires no event; (b) calling any setter twice in a row leaves the
state after the first call unchanged and fires no event on the second
call. -/
theorem C6_setter_idempotence (env : Decoration) (g : GState) (cid : Nat) (c : Client) (v : Bool)
    (h : g.findClient cid = some c) :
    (c.isfullscreen = v → client_setfullscreen env g cid v = (g, []))
  ∧ (c.ismaxhoriz = v → client_setmaxhoriz env g cid v = (g, []))
  ∧ (c.ismaxvert = v → client_setmaxvert env g cid v = (g, []))
  ∧ (c.isabove = v → client_setabove env g cid v = (g, []))
  ∧ (c.isbelow = v → client_setbelow env g cid v = (g, []))
  ∧ (c.isontop = v → client_setontop env g cid v = (g, []))
  ∧ (c.issticky = v → client_setsticky g cid v = (g, []))
  ∧ (c.isminimized = v → client_setminimized g cid v = (g, []))
  ∧ (c.ismodal = v → client_setmodal g cid v = (g, []))
  ∧ (c.isurgent = v → client_seturgent g cid v = (g, []))
  ∧ (client_setfullscreen env (client_setfullscreen env g cid v).1 cid v = ((client_setfullscreen env g cid v).1, []))
  ∧ (client_setmaxhoriz env (client_setmaxhoriz env g cid v).1 cid v = ((client_setmaxhoriz env g cid v).1, []))
  ∧ (client_setmaxvert env (client_setmaxvert env g cid v).1 cid v = ((client_setmaxvert env g cid v).1, []))
  ∧ (client_setabove env (client_setabove env g cid v).1 cid v = ((client_setabove env g cid v).1, []))
  ∧ (client_setbelow env (client_setbelow env g cid v).1 cid v = ((client_setbelow env g cid v).1, []))
  ∧ (client_setontop env (client_setontop env g cid v).1 cid v = ((client_setontop env g cid v).1, []))
  ∧ (client_setsticky (client_setsticky g cid v).1 cid v = ((client_setsticky g cid v).1, []))
  ∧ (client_setminimized (client_setminimized g cid v).1 cid v = ((client_setminimized g cid v).1, []))
  ∧ (client_setmodal (client_setmodal g cid v).1 cid v = ((client_setmodal g cid v).1, []))
  ∧ (client_seturgent (client_seturgent g cid v).1 cid v = ((client_seturgent g cid v).1, [])) := by
  refine ⟨?_, ?_, ?_, ?_, ?_, ?_, ?_, ?_, ?_, ?_, ?_, ?_, ?_, ?_, ?_, ?_, ?_, ?_, ?_, ?_⟩
  · intro hx; exact setfullscreen_noop (by rw [getClient_eq h]; exact hx)
  · intro hx; exact setmaxhoriz_noop (by rw [getClient_eq h]; exact hx)
  · intro hx; exact setmaxvert_noop (by rw [getClient_eq h]; exact hx)
  · intro hx; exact setabove_noop (by rw [getClient_eq h]; exact hx)
  · intro hx; exact setbelow_noop (by rw [getClient_eq h]; exact hx)
  · intro hx; exact setontop_noop (by rw [getClient_eq h]; exact hx)
  · intro hx; exact setsticky_noop (by rw [getClient_eq h]; exact hx)
  · intro hx; exact setminimized_noop (by rw [getClient_eq h]; exact hx)
  · intro hx; exact setmodal_noop (by rw [getClient_eq h]; exact hx)
  · intro hx; exact seturgent_noop (by rw [getClient_eq h]; exact hx)
  · obtain ⟨c', hc', hfl⟩ := flag_after_of_cflags h (setfullscreen_cflags env g cid v)
    refine setfullscreen_noop ?_
    rw [getClient_eq hc']
    show c'.cflags.isfullscreen = v
    rw [hfl]
    cases v <;> by_cases ho : c.cflags.isfullscreen <;> simp [ho]
  · obtain ⟨c', hc', hfl⟩ := flag_after_of_cflags h (setmaxhoriz_cflags env g cid v)
    refine setmaxhoriz_noop ?_
    rw [getClient_eq hc']
    show c'.cflags.ismaxhoriz = v
    rw [hfl]
    cases v <;> by_cases ho : c.cflags.ismaxhoriz <;> simp [ho]
  · obtain ⟨c', hc', hfl⟩ := flag_after_of_cflags h (setmaxvert_cflags env g cid v)
    refine setmaxvert_noop ?_
    rw [getClient_eq hc']
    show c'.cflags.ismaxvert = v
    rw [hfl]
    cases v <;> by_cases ho : c.cflags.ismaxvert <;> simp [ho]
  · obtain ⟨c', hc', hfl⟩ := flag_after_of_cflags h (setabove_cflags env g cid v)
    refine setabove_noop ?_
    rw [getClient_eq hc']
    show c'.cflags.isabove = v
    rw [hfl]
    cases v <;> by_cases ho : c.cflags.isabove <;> simp [ho]
  · obtain ⟨c', hc', hfl⟩ := flag_after_of_cflags h (setbelow_cflags env g cid v)
    refine setbelow_noop ?_
    rw [getClient_eq hc']
    show c'.cflags.isbelow = v
    rw [hfl]
    cases v <;> by_cases ho : c.cflags.isbelow <;> simp [ho]
  · obtain ⟨c', hc', hfl⟩ := flag_after_of_cflags h (setontop_cflags env g cid v)
    refine setontop_noop ?_
    rw [getClient_eq hc']
    show c'.cflags.isontop = v
    rw [hfl]
    cases v <;> by_cases ho : c.cflags.isontop <;> simp [ho]
  · obtain ⟨c', hc', hfl⟩ := flag_after_of_cflags h (setsticky_cflags g cid v)
    refine setsticky_noop ?_
    rw [getClient_eq hc']
    show c'.cflags.issticky = v
    rw [hfl]
  · obtain ⟨c', hc', hfl⟩ := flag_after_of_cflags h (setminimized_cflags g cid v)
    refine setminimized_noop ?_
    rw [getClient_eq hc']
    show c'.cflags.isminimized = v
    rw [hfl]
  · obtain ⟨c', hc', hfl⟩ := flag_after_of_cflags h (setmodal_cflags g cid v)
    refine setmodal_noop ?_
    rw [getClient_eq hc']
    show c'.cflags.ismodal = v
    rw [hfl]
  · obtain ⟨c', hc', hfl⟩ := flag_after_of_cflags h (seturgent_cflags g cid v)
    refine seturgent_noop ?_
    rw [getClient_eq hc']
    show c'.cflags.isurgent = v
    rw [hfl]

/-- Witness for `C6_setter_idempotence` at the concrete state `gW`:
a second identical `set_above(true)` call and a second identical
`set_fullscreen(true)` call change nothing and fire nothing, and
`set_above(true)` on a client already above is a no-op. -/
theorem C6_setter_idempotence_witness :
    (client_setabove Decoration.borderOnly
        (client_setabove Decoration.borderOnly gW 1 true).1 1 true
      = ((client_setabove Decoration.borderOnly gW 1 true).1, []))
  ∧ (client_setfullscreen Decoration.borderOnly
        (client_setfullscreen Decoration.borderOnly gW 1 true).1 1 true
      = ((client_setfullscreen Decoration.borderOnly gW 1 true).1, []))
  ∧ (client_setabove Decoration.borderOnly gW 1 true = (gW, [])) := by
  have h := C6_setter_idempotence Decoration.borderOnly gW 1 ({ mkC 1 with isabove := true }) true (by rfl)
  exact ⟨h.2.2.2.2.2.2.2.2.2.2.2.2.2.1, h.2.2.2.2.2.2.2.2.2.2.1,
         h.2.2.2.1 (by decide)⟩

/-- C1 (amended): special-layer mutual exclusion as the code enforces
it.  For every allocated client and each of the four special-layer
setters called with `true`: if the target flag was previously `false`,
the call clears the other three flags and sets the target (so exactly
one of the four is set afterwards); if the target flag was already
`true`, the call is a guard-protected no-op that changes nothing.
Hence at most one of the four flags is set after any of these calls
whenever at most one was set before — but not for *every* prior flag
combination, as the claim stated (see the counterexample). -/
theorem C1_special_layer_exclusion_amended (env : Decoration) (g : GState) (cid : Nat)
    (c : Client) (h : g.findClient cid = some c) :
    (c.isontop = false → ∃ c', (client_setontop env g cid true).1.findClient cid = some c'
        ∧ c'.isontop = true ∧ c'.isabove = false ∧ c'.isbelow = false ∧ c'.isfullscreen = false)
  ∧ (c.isontop = true → client_setontop env g cid true = (g, []))
  ∧ (atMostOneSpecial c → ∃ c', (client_setontop env g cid true).1.findClient cid = some c'
        ∧ atMostOneSpecial c')
  ∧ (c.isabove = false → ∃ c', (client_setabove env g cid true).1.findClient cid = some c'
        ∧ c'.isabove = true ∧ c'.isontop = false ∧ c'.isbelow = false ∧ c'.isfullscreen = false)
  ∧ (c.isabove = true → client_setabove env g cid true = (g, []))
  ∧ (atMostOneSpecial c → ∃ c', (client_setabove env g cid true).1.findClient cid = some c'
        ∧ atMostOneSpecial c')
  ∧ (c.isbelow = false → ∃ c', (client_setbelow env g cid true).1.findClient cid = some c'
        ∧ c'.isbelow = true ∧ c'.isontop = false ∧ c'.isabove = false ∧ c'.isfullscreen = false)
  ∧ (c.isbelow = true → client_setbelow env g cid true = (g, []))
  ∧ (atMostOneSpecial c → ∃ c', (client_setbelow env g cid true).1.findClient cid = some c'
        ∧ atMostOneSpecial c')
  ∧ (c.isfullscreen = false → ∃ c', (client_setfullscreen env g cid true).1.findClient cid = some c'
        ∧ c'.isfullscreen = true ∧ c'.isontop = false ∧ c'.isabove = false ∧ c'.isbelow = false)
  ∧ (c.isfullscreen = true → client_setfullscreen env g cid true = (g, []))
  ∧ (atMostOneSpecial c → ∃ c', (client_setfullscreen env g cid true).1.findClient cid = some c'
        ∧ atMostOneSpecial c') := by
  obtain ⟨ct, hct, hflt⟩ := flag_after_of_cflags h (setontop_cflags env g cid true)
  obtain ⟨ca, hca, hfla⟩ := flag_after_of_cflags h (setabove_cflags env g cid true)
  obtain ⟨cb, hcb, hflb⟩ := flag_after_of_cflags h (setbelow_cflags env g cid true)
  obtain ⟨cf, hcf, hflf⟩ := flag_after_of_cflags h (setfullscreen_cflags env g cid true)
  refine ⟨?_, ?_, ?_, ?_, ?_, ?_, ?_, ?_, ?_, ?_, ?_, ?_⟩
  · intro hn
    have hn' : c.cflags.isontop = false := hn
    refine ⟨ct, hct, ?_, ?_, ?_, ?_⟩ <;>
      first
      | (show ct.cflags.isontop = _; rw [hflt]; simp [hn'])
      | (show ct.cflags.isabove = _; rw [hflt]; simp [hn'])
      | (show ct.cflags.isbelow = _; rw [hflt]; simp [hn'])
      | (show ct.cflags.isfullscreen = _; rw [hflt]; simp [hn'])
  · intro hy; exact setontop_noop (by rw [getClient_eq h]; exact hy)
  · intro hm
    by_cases hn : c.isontop = true
    · have e := @setontop_noop env g cid true (by rw [getClient_eq h]; exact hn)
      rw [e]
      exact ⟨c, h, hm⟩
    · have hn' : c.cflags.isontop = false := by simpa using hn
      refine ⟨ct, hct, ?_⟩
      have h1 : ct.cflags.isontop = true := by rw [hflt]; simp [hn']
      have h2 : ct.cflags.isabove = false := by rw [hflt]; simp [hn']
      have h3 : ct.cflags.isbelow = false := by rw [hflt]; simp [hn']
      have h4 : ct.cflags.isfullscreen = false := by rw [hflt]; simp [hn']
      show (specialFlags ct).count true ≤ 1
      show ([ct.isontop, ct.isabove, ct.isbelow, ct.isfullscreen]).count true ≤ 1
      rw [show ct.isontop = true from h1, show ct.isabove = false from h2,
          show ct.isbelow = false from h3, show ct.isfullscreen = false from h4]
      decide
  · intro hn
    have hn' : c.cflags.isabove = false := hn
    refine ⟨ca, hca, ?_, ?_, ?_, ?_⟩ <;>
      first
      | (show ca.cflags.isontop = _; rw [hfla]; simp [hn'])
      | (show ca.cflags.isabove = _; rw [hfla]; simp [hn'])
      | (show ca.cflags.isbelow = _; rw [hfla]; simp [hn'])
      | (show ca.cflags.isfullscreen = _; rw [hfla]; simp [hn'])
  · intro hy; exact setabove_noop (by rw [getClient_eq h]; exact hy)
  · intro hm
    by_cases hn : c.isabove = true
    · have e := @setabove_noop env g cid true (by rw [getClient_eq h]; exact hn)
      rw [e]
      exact ⟨c, h, hm⟩
    · have hn' : c.cflags.isabove = false := by simpa using hn
      refine ⟨ca, hca, ?_⟩
      have h1 : ca.cflags.isabove = true := by rw [hfla]; simp [hn']
      have h2 : ca.cflags.isontop = false := by rw [hfla]; simp [hn']
      have h3 : ca.cflags.isbelow = false := by rw [hfla]; simp [hn']
      have h4 : ca.cflags.isfullscreen = false := by rw [hfla]; simp [hn']
      show ([ca.isontop, ca.isabove, ca.isbelow, ca.isfullscreen]).count true ≤ 1
      rw [show ca.isontop = false from h2, show ca.isabove = true from h1,
          show ca.isbelow = false from h3, show ca.isfullscreen = false from h4]
      decide
  · intro hn
    have hn' : c.cflags.isbelow = false := hn
    refine ⟨cb, hcb, ?_, ?_, ?_, ?_⟩ <;>
      first
      | (show cb.cflags.isontop = _; rw [hflb]; simp [hn'])
      | (show cb.cflags.isabove = _; rw [hflb]; simp [hn'])
      | (show cb.cflags.isbelow = _; rw [hflb]; simp [hn'])
      | (show cb.cflags.isfullscreen = _; rw [hflb]; simp [hn'])
  · intro hy; exact setbelow_noop (by rw [getClient_eq h]; exact hy)
  · intro hm
    by_cases hn : c.isbelow = true
    · have e := @setbelow_noop env g cid true (by rw [getClient_eq h]; exact hn)
      rw [e]
      exact ⟨c, h, hm⟩
    · have hn' : c.cflags.isbelow = false := by simpa using hn
      refine ⟨cb, hcb, ?_⟩
      have h1 : cb.cflags.isbelow = true := by rw [hflb]; simp [hn']
      have h2 : cb.cflags.isontop = false := by rw [hflb]; simp [hn']
      have h3 : cb.cflags.isabove = false := by rw [hflb]; simp [hn']
      have h4 : cb.cflags.isfullscreen = false := by rw [hflb]; simp [hn']
      show ([cb.isontop, cb.isabove, cb.isbelow, cb.isfullscreen]).count true ≤ 1
      rw [show cb.isontop = false from h2, show cb.isabove = false from h3,
          show cb.isbelow = true from h1, show cb.isfullscreen = false from h4]
      decide
  · intro hn
    have hn' : c.cflags.isfullscreen = false := hn
    refine ⟨cf, hcf, ?_, ?_, ?_, ?_⟩ <;>
      first
      | (show cf.cflags.isontop = _; rw [hflf]; simp [hn'])
      | (show cf.cflags.isabove = _; rw [hflf]; simp [hn'])
      | (show cf.cflags.isbelow = _; rw [hflf]; simp [hn'])
      | (show cf.cflags.isfullscreen = _; rw [hflf]; simp [hn'])
  · intro hy; exact setfullscreen_noop (by rw [getClient_eq h]; exact hy)
  · intro hm
    by_cases hn : c.isfullscreen = true
    · have e := @setfullscreen_noop env g cid true (by rw [getClient_eq h]; exact hn)
      rw [e]
      exact ⟨c, h, hm⟩
    · have hn' : c.cflags.isfullscreen = false := by simpa using hn
      refine ⟨cf, hcf, ?_⟩
      have h1 : cf.cflags.isfullscreen = true := by rw [hflf]; simp [hn']
      have h2 : cf.cflags.isontop = false := by rw [hflf]; simp [hn']
      have h3 : cf.cflags.isabove = false := by rw [hflf]; simp [hn']
      have h4 : cf.cflags.isbelow = false := by rw [hflf]; simp [hn']
      show ([cf.isontop, cf.isabove, cf.isbelow, cf.isfullscreen]).count true ≤ 1
      rw [show cf.isontop = false from h2, show cf.isabove = false from h3,
          show cf.isbelow = false from h4, show cf.isfullscreen = true from h1]
      decide

/-- C1 counterexample: from the prior flag combination
`ontop = above = true` (within the claim's "every prior combination"),
`set_ontop(true)` is a guard-protected no-op, so afterwards `above` is
still `true` — not `false` as the claim demands. -/
theorem C1_special_layer_exclusion_counterexample :
    (getClient gOA 1).isontop = true ∧ (getClient gOA 1).isabove = true
  ∧ client_setontop Decoration.borderOnly gOA 1 true = (gOA, [])
  ∧ (getClient (client_setontop Decoration.borderOnly gOA 1 true).1 1).isabove = true := by
  decide

/-- Witness for `C1_special_layer_exclusion_amended` at the concrete
state `gW` (client 1 has only `above` set): `set_ontop(true)` leaves
exactly `ontop` set. -/
theorem C1_special_layer_exclusion_witness :
    ∃ c', (client_setontop Decoration.borderOnly gW 1 true).1.findClient 1 = some c'
      ∧ c'.isontop = true ∧ c'.isabove = false ∧ c'.isbelow = false ∧ c'.isfullscreen = false := by
  exact (C1_special_layer_exclusion_amended Decoration.borderOnly gW 1
    ({ mkC 1 with isabove := true }) (by decide)).1 (by decide)

/-- C8 (amended): the border setter refuses *positive* widths on docks,
splash windows, desktop windows and fullscreen clients (no state change,
no notification), and refuses negative widths on every client; a call
with width 0 on such a client is **not** refused (these windows can
always be made borderless — see the counterexample). -/
theorem C8_border_refusal_amended :
    (∀ (g : GState) (cid : Nat) (c : Client) (width : Int),
       g.findClient cid = some c →
       (c.ctype = WindowType.dock ∨ c.ctype = WindowType.splash
         ∨ c.ctype = WindowType.desktop ∨ c.isfullscreen = true) →
       0 < width →
       client_setborder g cid width = (g, []))
  ∧ (∀ (g : GState) (cid : Nat) (width : Int), width < 0 →
       client_setborder g cid width = (g, [])) := by
  constructor
  · intro g cid c width h htype hw
    have hb : (c.ctype == WindowType.dock || c.ctype == WindowType.splash
               || c.ctype == WindowType.desktop || c.isfullscreen) = true := by
      rcases htype with h2 | h2 | h2 | h2 <;> simp [h2]
    simp [client_setborder, getClient_eq h, hw, hb]
  · intro g cid width hw
    have h1 : ¬(0 < width) := by omega
    simp [client_setborder, h1, hw]

/-- C8 counterexample: on a dock client with border 3, `set_border(0)`
is **not** refused — it changes the border to 0, shrinks the outer
geometry from 100×100 to 94×94 and fires the `border_width`
notification, contradicting the claim that *any* call on a dock leaves
the client unchanged and fires nothing. -/
theorem C8_border_refusal_counterexample :
    (getClient gDock 1).ctype = WindowType.dock
  ∧ (getClient gDock 1).border = 3
  ∧ (getClient (client_setborder gDock 1 0).1 1).border = 0
  ∧ (getClient (client_setborder gDock 1 0).1 1).geometry = ⟨0, 0, 94, 94⟩
  ∧ (client_setborder gDock 1 0).2
      = [.configureBorderWidth 1 0, .titlebarUpdate 1, .hook "border_width"] := by
  decide

/-- Witness for `C8_border_refusal_amended`: `set_border(5)` on the dock
client of `gDock` is refused. -/
theorem C8_border_refusal_witness : client_setborder gDock 1 5 = (gDock, []) :=
  (C8_border_refusal_amended).1 gDock 1
    ({ mkC 1 with ctype := WindowType.dock, border := 3 }) 5
    (by decide) (by decide) (by decide)

/-- C10: if the computed internal rectangle (offscreen clamp, decoration
removal, optional hint correction) equals the stored internal rectangle,
`client_resize` returns `false` and changes nothing — no state mutation
and no event, regardless of the proposed outer rectangle. -/
theorem C10_resize_internal_unchanged (env : Decoration) (g : GState) (cid : Nat)
    (geometry : Area) (hints : Bool)
    (h : client_resize_internal env g cid geometry hints = (getClient g cid).geometries.internal) :
    client_resize env g cid geometry hints = (g, [], false) := by
  simp only [client_resize, h]
  split
  · rfl
  · simp

/-- Witness for `C10_resize_internal_unchanged` at `gR`: the proposal
(10,10,50,50) equals the stored internal rectangle but differs from the
stored outer rectangle (0,0,1,1) — resize still reports "unchanged" and
mutates nothing. -/
theorem C10_resize_internal_unchanged_witness :
    client_resize Decoration.borderOnly gR 1 ⟨10, 10, 50, 50⟩ false = (gR, [], false)
  ∧ (getClient gR 1).geometry ≠ (⟨10, 10, 50, 50⟩ : Area) :=
  ⟨C10_resize_internal_unchanged Decoration.borderOnly gR 1 ⟨10, 10, 50, 50⟩ false (by decide),
   by decide⟩

/-- C5 counterexample: with min = max aspect 4/3, base (0,0) and a
100×100 proposal, the resolver returns width 112, height 84 — the
correction changes *both* axes (projecting onto the aspect line), so the
width is not "approximately 100" (it is 12% larger) and the result is
not approximately (100, 75) as the claim states. -/
theorem C5_aspect_example_counterexample :
    client_geometry_hints aspectClient ⟨3, 7, 100, 100⟩ = ⟨3, 7, 112, 84⟩
  ∧ ¬((client_geometry_hints aspectClient ⟨3, 7, 100, 100⟩).width ≤ 105) := by
  decide

/-- C5 (amended): on the aspect example the resolver corrects the
100×100 proposal to width 112, height 84 — exactly ratio 4/3, reached by
raising the width and lowering the height (the closest point on the
aspect line), with x and y unchanged. -/
theorem C5_aspect_example_amended :
    client_geometry_hints aspectClient ⟨3, 7, 100, 100⟩ = ⟨3, 7, 112, 84⟩
  ∧ (client_geometry_hints aspectClient ⟨3, 7, 100, 100⟩).width * 3
      = (client_geometry_hints aspectClient ⟨3, 7, 100, 100⟩).height * 4 := by
  decide

/-- C7: the resize-increment example (base (0,0), increments 10×10,
proposal 107×94 → 100×90, x/y unchanged), and the saturating behaviour
of the `unsigned_subtract` step: its result is always a non-negative
16-bit value, and for a base between 0 and the (16-bit) proposed
dimension it is exact subtraction floored at zero. -/
theorem C7_resize_increment_snapping :
    client_geometry_hints incClient ⟨5, 6, 107, 94⟩ = ⟨5, 6, 100, 90⟩
  ∧ (∀ a b : Int, 0 ≤ unsigned_subtract a b ∧ unsigned_subtract a b < 65536)
  ∧ (∀ a b : Int, 0 ≤ a → a < 65536 → 0 ≤ b → unsigned_subtract a b = max (a - b) 0) := by
  refine ⟨by decide, ?_, ?_⟩
  · intro a b
    unfold unsigned_subtract u16
    constructor <;> (split <;> omega)
  · intro a b h1 h2 h3
    unfold unsigned_subtract u16
    split <;> omega

/-- Witness for `C7_resize_increment_snapping`: a proposed dimension 5
smaller than base 9 floors at zero. -/
theorem C7_resize_increment_snapping_witness :
    unsigned_subtract 5 9 = max (5 - 9) 0 :=
  (C7_resize_increment_snapping).2.2 5 9 (by decide) (by decide) (by decide)

/-- C2: in a registry with A (normal), B (transient for A) and C
(`above`), a dirty `restack` emits, for **every** stack order of the
three, the placement directives A at the bottom, B directly above A
(via the transient recursion) and C above both, and clears the dirty
flag. -/
theorem C2_stacking_transient_order :
    ∀ st : List Nat, st.Perm [1, 2, 3] →
      client_stack_refresh (mkStackState st)
        = ({ mkStackState st with client_need_stack_refresh := false },
           [.stackAbove 1 0, .stackAbove 2 1, .stackAbove 3 2]) := by
  intro st hp
  have hlen : st.length = 3 := hp.length_eq
  rcases st with _ | ⟨a, _ | ⟨b, _ | ⟨c, _ | ⟨d, t⟩⟩⟩⟩
  · simp at hlen
  · simp at hlen
  · simp at hlen
  · have ha : a ∈ ([1, 2, 3] : List Nat) := hp.subset (by simp)
    have hb : b ∈ ([1, 2, 3] : List Nat) := hp.subset (by simp)
    have hc : c ∈ ([1, 2, 3] : List Nat) := hp.subset (by simp)
    fin_cases ha <;> fin_cases hb <;> fin_cases hc <;>
      first
        | exact absurd hp (by decide)
        | decide
  · simp at hlen

/-- Witness for `C2_stacking_transient_order` at the stack order
[A, C, B]: B is still placed immediately above A and C above both. -/
theorem C2_stacking_transient_order_witness :
    client_stack_refresh (mkStackState [1, 3, 2])
      = ({ mkStackState [1, 3, 2] with client_need_stack_refresh := false },
         [.stackAbove 1 0, .stackAbove 2 1, .stackAbove 3 2]) :=
  C2_stacking_transient_order [1, 3, 2] (by decide)

/-- C4: `client_focus(NULL)`.  With a non-empty registry the call
defaults to the first registry member (here window 10, which ends up
focused).  With an **empty** registry, however, the code is not a no-op:
`c` stays NULL and is passed to `client_maybevisible`, whose `c->screen`
read dereferences NULL — modelled as the crash result `none`. -/
theorem C4_focus_none :
    client_focus emptyG none = none
  ∧ (client_focus gFocus none).map (fun r => (getScreen r.1 0).client_focus)
      = some (some 10) := by
  decide

/-- C3 (amended): `client_focus` on a client that fails its visibility
check returns immediately, leaving all state unchanged and firing
nothing — it does *not* fall back to the previously-focused client.
The fallback lives in `client_focus_update`: invoked directly with an
ineligible client it recurses into `client_focus` on
`screen_focus->prev_client_focus` (the globally last-focused screen's
pointer), which in turn drops the call if that client is not visible. -/
theorem C3_focus_fallback_amended :
    (∀ (g : GState) (cid : Nat) (c : Client),
       g.findClient cid = some c →
       client_maybevisible g c c.screen = false →
       client_focus g (some cid) = some (g, []))
  ∧ (∀ (g : GState) (cid : Nat) (c : Client) (sf : Nat),
       g.findClient cid = some c →
       client_maybevisible g c c.screen = false →
       g.screen_focus = some sf →
       client_focus_update g cid = client_focus g (getScreen g sf).prev_client_focus) := by
  constructor
  · intro g cid c h hv
    simp [client_focus, h, hv]
  · intro g cid c sf h hv hsf
    simp [client_focus_update, h, hv, hsf]

/-- C3 counterexample: Y (window 11) fails visibility, the region's
previously-focused client X (window 10) *is* visible, yet
`client_focus(Y)` leaves the state unchanged (X is not focused, no
event fires) — refuting the claim that the call "instead attempts to
focus that region's previously-focused client". -/
theorem C3_focus_fallback_counterexample :
    client_maybevisible gFocus cY 0 = false
  ∧ (getScreen gFocus 0).prev_client_focus = some 10
  ∧ client_maybevisible gFocus cX 0 = true
  ∧ client_focus gFocus (some 11) = some (gFocus, []) := by
  decide

/-- Witness for `C3_focus_fallback_amended` at `gFocus`. -/
theorem C3_focus_fallback_witness :
    client_focus gFocus (some 11) = some (gFocus, [])
  ∧ client_focus_update gFocus 11
      = client_focus gFocus (getScreen gFocus 0).prev_client_focus := by
  constructor
  · exact (C3_focus_fallback_amended).1 gFocus 11 cY (by decide) (by decide)
  · exact (C3_focus_fallback_amended).2 gFocus 11 cY 0 (by decide) (by decide) (by decide)

/-! ## Lemmas for `client_unmanage` -/

theorem screens_updateClient (g : GState) (cid : Nat) (f : Client → Client) :
    (updateClient g cid f).screens = g.screens := rfl

theorem getScreen_modifyScreen (g : GState) (i j : Nat) (f : Screen → Screen) :
    getScreen (modifyScreen g i f) j
      = if j = i ∧ i < g.screens.length then f (getScreen g i) else getScreen g j := by
  unfold getScreen modifyScreen
  by_cases hj : j = i
  · subst hj
    by_cases hl : j < g.screens.length
    · simp [List.getD, List.getElem?_set, hl, List.getElem?_eq_getElem]
      congr 1
      unfold getScreen
      simp [List.getD, List.getElem?_eq_getElem, hl]
    · have h0 : g.screens.length ≤ j := by omega
      simp [List.getD, List.getElem?_set, hl, List.getElem?_eq_none h0]
  · have hij : ¬ i = j := fun e => hj e.symm
    simp [List.getD, List.getElem?_set, hij, hj]

theorem findClient_trans_clear (g : GState) (q w : Nat) :
    GState.findClient { g with heap := g.heap.map (fun tc =>
        if tc.transient_for = some q then { tc with transient_for := none } else tc) } w
      = (g.findClient w).map (fun tc =>
          if tc.transient_for = some q then { tc with transient_for := none } else tc) := by
  apply findClient_heapMap
  intro c
  split <;> rfl

theorem findClient_set_clients (g : GState) (l : List Nat) (w : Nat) :
    GState.findClient { g with clients := l } w = g.findClient w := rfl

theorem findClient_set_stack (g : GState) (l : List Nat) (w : Nat) :
    GState.findClient { g with stack := l } w = g.findClient w := rfl

theorem findClient_client_unfocus (g : GState) (cid : Nat) (w : Nat) :
    (client_unfocus g cid).1.findClient w = g.findClient w := rfl

/-- The heap effect of `client_unmanage`: every client's `transient_for`
reference to the departing client is cleared, and the departing client
itself is additionally marked invalid; nothing else in the heap
changes. -/
theorem unmanage_findClient (g : GState) (q w : Nat) :
    (client_unmanage g q).1.findClient w
      = (g.findClient w).map (fun c =>
          (fun c1 => if c1.win = q then { c1 with invalid := true } else c1)
            (if c.transient_for = some q then { c with transient_for := none } else c)) := by
  have hh : (client_unmanage g q).1.heap
      = (g.heap.map (fun tc =>
            if tc.transient_for = some q then { tc with transient_for := none } else tc)).map
          (fun c1 => if c1.win = q then { c1 with invalid := true } else c1) := by
    simp only [client_unmanage]
    split <;> split <;> rfl
  show (client_unmanage g q).1.heap.find? (fun c => c.win == w) = _
  rw [hh, List.map_map, List.find?_map]
  have hp : ((fun c : Client => c.win == w)
        ∘ ((fun c1 => if c1.win = q then { c1 with invalid := true } else c1)
            ∘ (fun tc : Client =>
                if tc.transient_for = some q then { tc with transient_for := none } else tc)))
      = fun c : Client => c.win == w := by
    funext c
    simp only [Function.comp]
    split <;> split <;> rfl
  rw [hp]
  have hfc : List.find? (fun c => c.win == w) g.heap = g.findClient w := rfl
  rw [hfc]
  cases g.findClient w <;> rfl

theorem getScreen_updateClient (g : GState) (cid : Nat) (f : Client → Client) (j : Nat) :
    getScreen (updateClient g cid f) j = getScreen g j := rfl

theorem getScreen_set_clients (g : GState) (l : List Nat) (j : Nat) :
    getScreen { g with clients := l } j = getScreen g j := rfl

theorem getScreen_set_stack (g : GState) (l : List Nat) (j : Nat) :
    getScreen { g with stack := l } j = getScreen g j := rfl

theorem getScreen_set_heap (g : GState) (h : List Client) (j : Nat) :
    getScreen { g with heap := h } j = getScreen g j := rfl

theorem getScreen_out_of_range {g : GState} {j : Nat} (h : ¬ j < g.screens.length) :
    getScreen g j = default := by
  unfold getScreen
  have h0 : g.screens.length ≤ j := by omega
  simp [List.getD, List.getElem?_eq_none h0]

theorem getScreen_modify_focus (g : GState) (i j : Nat) (f : Screen → Screen)
    (hf : ∀ s, (f s).client_focus = s.client_focus) :
    (getScreen (modifyScreen g i f) j).client_focus = (getScreen g j).client_focus := by
  rw [getScreen_modifyScreen]
  split
  · next hc => rw [hf, hc.1]
  · rfl

theorem getScreen_modify_prev (g : GState) (i j : Nat) (f : Screen → Screen)
    (hf : ∀ s, (f s).prev_client_focus = s.prev_client_focus) :
    (getScreen (modifyScreen g i f) j).prev_client_focus
      = (getScreen g j).prev_client_focus := by
  rw [getScreen_modifyScreen]
  split
  · next hc => rw [hf, hc.1]
  · rfl

theorem client_unfocus_state (g : GState) (cid : Nat) :
    (client_unfocus g cid).1
      = modifyScreen g (getClient g cid).phys_screen
          (fun s => { s with client_focus := none }) := rfl

theorem getClient_trans_mapped (g : GState) (q : Nat) (cq : Client)
    (hq : g.findClient q = some cq) (i : Nat) (f : Screen → Screen) :
    getClient (modifyScreen { g with heap := g.heap.map (fun tc =>
        if tc.transient_for = some q then { tc with transient_for := none } else tc) } i f) q
      = if cq.transient_for = some q then { cq with transient_for := none } else cq := by
  unfold getClient
  rw [findClient_modifyScreen, findClient_trans_clear, hq]
  rfl

theorem getClient_trans_mapped0 (g : GState) (q : Nat) (cq : Client)
    (hq : g.findClient q = some cq) :
    getClient { g with heap := g.heap.map (fun tc =>
        if tc.transient_for = some q then { tc with transient_for := none } else tc) } q
      = if cq.transient_for = some q then { cq with transient_for := none } else cq := by
  unfold getClient
  rw [findClient_trans_clear, hq]
  rfl

theorem getScreen_mk (h : List Client) (cl st : List Nat) (scr : List Screen)
    (wb : List Wibox) (sf : Option Nat) (dr : Bool) (dp : List Area) (j : Nat) :
    getScreen ⟨h, cl, st, scr, wb, sf, dr, dp⟩ j = scr.getD j default := rfl

theorem getD_screens_eq_getScreen (r : GState) (j : Nat) :
    r.screens.getD j default = getScreen r j := rfl

/-- After `client_unmanage`, the departing client's physical screen
refers to it neither as `client_focus` nor as `prev_client_focus`. -/
theorem unmanage_focus_cleared (g : GState) (q : Nat) (cq : Client)
    (hq : g.findClient q = some cq) :
    (getScreen (client_unmanage g q).1 cq.phys_screen).client_focus ≠ some q
  ∧ (getScreen (client_unmanage g q).1 cq.phys_screen).prev_client_focus ≠ some q := by
  have hphys : (if cq.transient_for = some q then { cq with transient_for := none } else cq).phys_screen
      = cq.phys_screen := by split <;> rfl
  simp only [client_unmanage, getClient_eq hq]
  split
  next hP1 =>
    split
    next hP2 =>
      constructor
      · rw [getScreen_updateClient, getScreen_modify_focus, getScreen_mk,
            getD_screens_eq_getScreen, client_unfocus_state,
            getClient_trans_mapped g q cq hq, hphys, getScreen_modifyScreen]
        · split
          · simp
          · next hc =>
            have hl := fun hlt => hc ⟨rfl, hlt⟩
            rw [getScreen_out_of_range hl]
            simp
        · intro s; rfl
      · rw [getScreen_updateClient, getScreen_modify_prev, getScreen_mk,
            getD_screens_eq_getScreen, client_unfocus_state, getScreen_modify_prev,
            getScreen_modifyScreen]
        · split
          · simp
          · next hc =>
            have hl := fun hlt => hc ⟨rfl, hlt⟩
            rw [getScreen_out_of_range hl]
            simp
        · intro s; rfl
        · intro s; rfl
    next hP2 =>
      constructor
      · rw [getScreen_updateClient, getScreen_modify_focus, getScreen_mk,
            getD_screens_eq_getScreen]
        · exact hP2
        · intro s; rfl
      · rw [getScreen_updateClient, getScreen_modify_prev, getScreen_mk,
            getD_screens_eq_getScreen, getScreen_modifyScreen]
        · split
          · simp
          · next hc =>
            have hl := fun hlt => hc ⟨rfl, hlt⟩
            rw [getScreen_out_of_range hl]
            simp
        · intro s; rfl
  next hP1 =>
    split
    next hP2 =>
      constructor
      · rw [getScreen_updateClient, getScreen_modify_focus, getScreen_mk,
            getD_screens_eq_getScreen, client_unfocus_state,
            getClient_trans_mapped0 g q cq hq, hphys, getScreen_modifyScreen]
        · split
          · simp
          · next hc =>
            have hl := fun hlt => hc ⟨rfl, hlt⟩
            rw [getScreen_out_of_range hl]
            simp
        · intro s; rfl
      · rw [getScreen_updateClient, getScreen_modify_prev, getScreen_mk,
            getD_screens_eq_getScreen, client_unfocus_state, getScreen_modify_prev]
        · exact hP1
        · intro s; rfl
        · intro s; rfl
    next hP2 =>
      constructor
      · rw [getScreen_updateClient, getScreen_modify_focus, getScreen_mk,
            getD_screens_eq_getScreen]
        · exact hP2
        · intro s; rfl
      · rw [getScreen_updateClient, getScreen_modify_prev, getScreen_mk,
            getD_screens_eq_getScreen]
        · exact hP1
        · intro s; rfl

theorem unmanage_clients (g : GState) (q : Nat) :
    (client_unmanage g q).1.clients = g.clients.erase q := by
  simp only [client_unmanage]
  split <;> split <;> rfl

theorem unmanage_stack (g : GState) (q : Nat) :
    (client_unmanage g q).1.stack = g.stack.erase q := by
  simp only [client_unmanage]
  split <;> split <;> rfl

/-- C9: weak-reference cleanup on unmanage.  For managed clients P and Q
with P transient for Q, after `client_unmanage(Q)`: P's `transient_for`
is cleared (and nothing else about P changes — in particular P stays
valid), P is still a registry member, Q is removed from both the
membership sequence and the stack, Q's physical screen no longer names Q
as focused or previously-focused, and Q is marked invalid. -/
theorem C9_unmanage_cleanup (g : GState) (p q : Nat) (cp cq : Client)
    (hpq : p ≠ q)
    (hp : g.findClient p = some cp)
    (hq : g.findClient q = some cq)
    (htrans : cp.transient_for = some q)
    (hndc : g.clients.Nodup) (hnds : g.stack.Nodup)
    (hmem : p ∈ g.clients) :
    ((client_unmanage g q).1.findClient p = some { cp with transient_for := none })
  ∧ p ∈ (client_unmanage g q).1.clients
  ∧ q ∉ (client_unmanage g q).1.clients
  ∧ q ∉ (client_unmanage g q).1.stack
  ∧ (getScreen (client_unmanage g q).1 cq.phys_screen).client_focus ≠ some q
  ∧ (getScreen (client_unmanage g q).1 cq.phys_screen).prev_client_focus ≠ some q
  ∧ (∃ cq', (client_unmanage g q).1.findClient q = some cq' ∧ cq'.invalid = true) := by
  have hpwin : cp.win = p := findClient_win hp
  have hqwin : cq.win = q := findClient_win hq
  refine ⟨?_, ?_, ?_, ?_, (unmanage_focus_cleared g q cq hq).1,
          (unmanage_focus_cleared g q cq hq).2, ?_⟩
  · rw [unmanage_findClient, hp]
    simp [htrans, hpwin, hpq]
  · rw [unmanage_clients]
    exact (List.mem_erase_of_ne hpq).2 hmem
  · rw [unmanage_clients]
    simp [List.Nodup.mem_erase_iff hndc]
  · rw [unmanage_stack]
    simp [List.Nodup.mem_erase_iff hnds]
  · rw [unmanage_findClient, hq]
    refine ⟨_, rfl, ?_⟩
    by_cases ht : cq.transient_for = some q <;> simp [ht, hqwin]

/-- Witness for `C9_unmanage_cleanup` at `gPQ` (P = window 1 transient
for Q = window 2, Q focused and previously-focused). -/
theorem C9_unmanage_cleanup_witness :
    ((client_unmanage gPQ 2).1.findClient 1
        = some { ({ mkC 1 with transient_for := some 2 } : Client) with transient_for := none })
  ∧ 1 ∈ (client_unmanage gPQ 2).1.clients
  ∧ 2 ∉ (client_unmanage gPQ 2).1.clients
  ∧ 2 ∉ (client_unmanage gPQ 2).1.stack
  ∧ (getScreen (client_unmanage gPQ 2).1 (mkC 2).phys_screen).client_focus ≠ some 2
  ∧ (getScreen (client_unmanage gPQ 2).1 (mkC 2).phys_screen).prev_client_focus ≠ some 2
  ∧ (∃ cq', (client_unmanage gPQ 2).1.findClient 2 = some cq' ∧ cq'.invalid = true) :=
  C9_unmanage_cleanup gPQ 1 2 ({ mkC 1 with transient_for := some 2 }) (mkC 2)
    (by decide) (by decide) (by decide) (by decide) (by decide) (by decide) (by decide)
